import Mathlib

/-!
Verification development for the record-recovery and reconciliation core of the
James-Phifer-Labs PDF extraction repository.  The Python sources under `src/`
are shallowly embedded below: strings are lists of characters, Python `None`
becomes `Option`, exceptions become `Option`-valued results, and floating-point
confidence/similarity scores become exact rationals (every score in the source
is a small decimal literal or a ratio of small naturals, and every comparison
in the source is against such a literal, so the rational model decides each
comparison exactly as CPython does).

Embedded components:
 * `repair_json`, `repair_truncated_json`, `extract_largest_valid_json`,
   `extract_extracted_fields_only`, `extract_last_complete_fields`,
   `extract_any_complete_fields`, `emergency_field_extraction` and the
   call-site repair cascade, from `src/pdf_extractor_restructured.py`
   (lines 69-399 and 630-707), together with a model of `json.loads` /
   `json.dumps`.
 * `normalize_checkbox_value` (lines 454-461) and `validate_field_value`
   (lines 853-980) with the retention filter of `extract_comprehensive`
   (lines 1726-1745).
 * the per-sample slot-assignment passes, compound-value splits, global
   fallbacks and affirmation expansion of `restructure_sample_data`
   (lines 982-1533).
 * `_calculate_similarity` and `_create_detailed_mapping` from
   `src/enhanced_extractor.py` (lines 325-376; `src/advanced_pdf_extractor.py`
   carries an identical copy).
-/

/-- Python strings are modelled as lists of characters. -/
abbrev Str := List Char

/-- Coerce a Lean string literal into the character-list model. -/
def chars (s : String) : Str := s.data

/-- ASCII lower-casing of one character, as `str.lower` acts on the ASCII
inputs this pipeline compares (non-ASCII characters are left unchanged). -/
def lowChar (c : Char) : Char :=
  if 'A' ≤ c ∧ c ≤ 'Z' then Char.ofNat (c.toNat + 32) else c

/-- ASCII upper-casing of one character, as `str.upper` acts on the ASCII
inputs this pipeline compares. -/
def upChar (c : Char) : Char :=
  if 'a' ≤ c ∧ c ≤ 'z' then Char.ofNat (c.toNat - 32) else c

/-- Model of Python `str.lower` on a whole string. -/
def lowStr (s : Str) : Str := s.map lowChar

/-- Model of Python `str.upper` on a whole string. -/
def upStr (s : Str) : Str := s.map upChar

/-- The characters Python's `str.strip()` and the regex class `\s` treat as
whitespace (ASCII part). -/
def isPyWs (c : Char) : Bool :=
  c = ' ' ∨ c = '\t' ∨ c = '\n' ∨ c = '\r' ∨ c = '\x0b' ∨ c = '\x0c'

/-- Model of Python `str.strip()` (remove whitespace from both ends). -/
def pyStrip (s : Str) : Str :=
  ((s.dropWhile isPyWs).reverse.dropWhile isPyWs).reverse

/-- Prefix test on the character-list model of strings. -/
def strStarts (s pat : Str) : Bool := pat.isPrefixOf s

/-- Suffix test on the character-list model of strings. -/
def strEnds (s pat : Str) : Bool := pat.isSuffixOf s

/-- Substring test, modelling Python's `pat in s`. -/
def strHas (s pat : Str) : Bool :=
  match s with
  | [] => pat = []
  | _ :: rest => pat.isPrefixOf s || strHas rest pat

/-- Model of Python `str.find`: index of the first occurrence of `pat` in `s`,
or `-1` when absent. -/
def strFind (s pat : Str) : Int :=
  match s with
  | [] => if pat = [] then 0 else -1
  | _ :: rest =>
      if pat.isPrefixOf s then 0
      else
        let r := strFind rest pat
        if r = -1 then -1 else r + 1

/-- Model of Python `str.rfind c`: index of the last occurrence of the single
character `c`, or `-1` when absent. -/
def strRFind (s : Str) (c : Char) : Int :=
  match s with
  | [] => -1
  | x :: rest =>
      let r := strRFind rest c
      if r = -1 then (if x = c then 0 else -1) else r + 1

/-- Model of Python `str.replace old new` for single-character-free patterns:
replaces every non-overlapping occurrence left to right. -/
def strReplace (fuel : Nat) (s old new : Str) : Str :=
  match fuel, s with
  | 0, s => s
  | _, [] => []
  | fuel + 1, c :: rest =>
      if old ≠ [] ∧ old.isPrefixOf (c :: rest) then
        new ++ strReplace fuel ((c :: rest).drop old.length) old new
      else
        c :: strReplace fuel rest old new

/-- Convenience wrapper supplying the fuel for `strReplace`. -/
def pyReplace (s old new : Str) : Str := strReplace s.length s old new

/-- Python `str.split()` with no separator: split on whitespace runs and drop
empty pieces. -/
def pySplitWs (s : Str) : List Str :=
  (List.splitOnP (fun c => isPyWs c) s).filter (· ≠ [])

/-- Python `str.isdigit` restricted to the ASCII digits that occur in this
pipeline's inputs. -/
def pyIsDigit (s : Str) : Bool := s ≠ [] ∧ s.all (fun c : Char => c.isDigit)

/-- Numeric value of an ASCII digit string, modelling Python `int`. -/
def digitsToNat (s : Str) : Nat :=
  s.foldl (fun acc c => acc * 10 + (c.toNat - '0'.toNat)) 0

/-- JSON values as produced by `json.loads`.  Numbers keep their source lexeme
instead of a float: the pipeline never inspects numeric values, and every use
of a dumped number is re-parsed behind a parse-success guard, which the lexeme
round-trip preserves (Python would re-format the literal, e.g. `1e2` to
`100.0`; that difference is unobservable in the embedded code). -/
inductive JVal : Type
  | jnull : JVal
  | jbool (b : Bool) : JVal
  | jnum (lex : Str) : JVal
  | jstr (s : Str) : JVal
  | jarr (elems : List JVal) : JVal
  | jobj (fields : List (Str × JVal)) : JVal

open JVal

/-- The whitespace characters Python's JSON decoder skips. -/
def isJWs (c : Char) : Bool := c = ' ' ∨ c = '\t' ∨ c = '\n' ∨ c = '\r'

/-- Skip JSON whitespace. -/
def skipWs (s : Str) : Str := s.dropWhile isJWs

/-- Hexadecimal digit value, if any. -/
def hexVal (c : Char) : Option Nat :=
  if '0' ≤ c ∧ c ≤ '9' then some (c.toNat - '0'.toNat)
  else if 'a' ≤ c ∧ c ≤ 'f' then some (c.toNat - 'a'.toNat + 10)
  else if 'A' ≤ c ∧ c ≤ 'F' then some (c.toNat - 'A'.toNat + 10)
  else none

/-- Body of a JSON string literal, after the opening quote: returns the
decoded content and the remainder after the closing quote.  Mirrors Python's
strict decoder: raw control characters below 0x20 are rejected, the escapes
are `\" \\ \/ \b \f \n \r \t \uXXXX`. -/
def pStrGo (fuel : Nat) (acc : Str) (s : Str) : Option (Str × Str) :=
  match fuel, s with
  | 0, _ => none
  | _ + 1, [] => none
  | fuel + 1, c :: rest =>
      if c = '"' then some (acc.reverse, rest)
      else if c = '\\' then
        match rest with
        | [] => none
        | e :: rest2 =>
            if e = '"' then pStrGo fuel ('"' :: acc) rest2
            else if e = '\\' then pStrGo fuel ('\\' :: acc) rest2
            else if e = '/' then pStrGo fuel ('/' :: acc) rest2
            else if e = 'b' then pStrGo fuel ('\x08' :: acc) rest2
            else if e = 'f' then pStrGo fuel ('\x0c' :: acc) rest2
            else if e = 'n' then pStrGo fuel ('\n' :: acc) rest2
            else if e = 'r' then pStrGo fuel ('\r' :: acc) rest2
            else if e = 't' then pStrGo fuel ('\t' :: acc) rest2
            else if e = 'u' then
              match rest2 with
              | h1 :: h2 :: h3 :: h4 :: rest3 =>
                  match hexVal h1, hexVal h2, hexVal h3, hexVal h4 with
                  | some a, some b, some cc, some d =>
                      pStrGo fuel (Char.ofNat (((a * 16 + b) * 16 + cc) * 16 + d) :: acc) rest3
                  | _, _, _, _ => none
              | _ => none
            else none
      else if c.toNat < 32 then none
      else pStrGo fuel (c :: acc) rest

/-- Parse a JSON string body (see `pStrGo`). -/
def pStr (s : Str) : Option (Str × Str) := pStrGo (s.length + 1) [] s

/-- Parse a JSON number at the head of `s`, returning its lexeme, mirroring
Python's `NUMBER_RE` (`-?(?:0|[1-9]\d*)(\.\d+)?([eE][-+]?\d+)?`). -/
def pNum (s : Str) : Option (Str × Str) :=
  let (sign, s1) :=
    match s with
    | '-' :: rest => ([('-' : Char)], rest)
    | _ => ([], s)
  let (ip, s2) :=
    match s1 with
    | '0' :: rest => ([('0' : Char)], rest)
    | _ =>
        match s1.span (fun c : Char => c.isDigit) with
        | (ds, rest) => (ds, rest)
  if ip = [] then none
  else
    let (fp, s3) :=
      match s2 with
      | '.' :: rest =>
          let ds := rest.takeWhile (fun c : Char => c.isDigit)
          if ds = [] then (([] : Str), s2)
          else ('.' :: ds, rest.drop ds.length)
      | _ => ([], s2)
    let (ep, s4) :=
      match s3 with
      | e :: rest =>
          if e = 'e' ∨ e = 'E' then
            let (sg, rest2) :=
              match rest with
              | '+' :: r => ([('+' : Char)], r)
              | '-' :: r => ([('-' : Char)], r)
              | _ => (([] : Str), rest)
            let ds := rest2.takeWhile (fun c : Char => c.isDigit)
            if ds = [] then (([] : Str), s3)
            else (e :: (sg ++ ds), rest2.drop ds.length)
          else ([], s3)
      | _ => ([], s3)
    some (sign ++ ip ++ fp ++ ep, s4)

/-- Insert a key into an object with Python-dict semantics: an existing key
keeps its position and gets the new value, a new key is appended. -/
def objIns (l : List (Str × JVal)) (k : Str) (v : JVal) : List (Str × JVal) :=
  if l.any (fun p => p.1 = k) then l.map (fun p => if p.1 = k then (k, v) else p)
  else l ++ [(k, v)]

/-- Look a key up in a parsed object. -/
def oLookup (l : List (Str × JVal)) (k : Str) : Option JVal :=
  (l.find? (fun p => p.1 = k)).map (·.2)

mutual

/-- Parse one JSON value at the head of `s` (no leading whitespace), mirroring
`json.loads`'s scanner, including its `NaN` / `Infinity` / `-Infinity`
extensions. -/
def pVal (fuel : Nat) (s : Str) : Option (JVal × Str) :=
  match fuel with
  | 0 => none
  | fuel + 1 =>
      match s with
      | [] => none
      | c :: rest =>
          if c = '{' then
            match skipWs rest with
            | '}' :: r2 => some (jobj [], r2)
            | r => pMembers fuel r []
          else if c = '[' then
            match skipWs rest with
            | ']' :: r2 => some (jarr [], r2)
            | r =>
                match pElems fuel r with
                | some (es, r2) => some (jarr es, r2)
                | none => none
          else if c = '"' then
            match pStr rest with
            | some (content, r) => some (jstr content, r)
            | none => none
          else if strStarts s (chars "true") then some (jbool true, s.drop 4)
          else if strStarts s (chars "false") then some (jbool false, s.drop 5)
          else if strStarts s (chars "null") then some (jnull, s.drop 4)
          else if strStarts s (chars "NaN") then some (jnum (chars "NaN"), s.drop 3)
          else if strStarts s (chars "Infinity") then some (jnum (chars "Infinity"), s.drop 8)
          else if strStarts s (chars "-Infinity") then some (jnum (chars "-Infinity"), s.drop 9)
          else
            match pNum s with
            | some (lex, r) => some (jnum lex, r)
            | none => none

/-- Parse the elements of a non-empty JSON array, whitespace already skipped. -/
def pElems (fuel : Nat) (s : Str) : Option (List JVal × Str) :=
  match fuel with
  | 0 => none
  | fuel + 1 =>
      match pVal fuel s with
      | none => none
      | some (v, r) =>
          match skipWs r with
          | ',' :: r2 =>
              match pElems fuel (skipWs r2) with
              | some (es, r3) => some (v :: es, r3)
              | none => none
          | ']' :: r2 => some ([v], r2)
          | _ => none

/-- Parse the members of a non-empty JSON object, whitespace already skipped
before the first key. -/
def pMembers (fuel : Nat) (s : Str) (acc : List (Str × JVal)) : Option (JVal × Str) :=
  match fuel with
  | 0 => none
  | fuel + 1 =>
      match s with
      | '"' :: rest =>
          match pStr rest with
          | none => none
          | some (k, r1) =>
              match skipWs r1 with
              | ':' :: r2 =>
                  match pVal fuel (skipWs r2) with
                  | none => none
                  | some (v, r3) =>
                      match skipWs r3 with
                      | ',' :: r4 => pMembers fuel (skipWs r4) (objIns acc k v)
                      | '}' :: r4 => some (jobj (objIns acc k v), r4)
                      | _ => none
              | _ => none
      | _ => none

end

/-- Model of `json.loads`: parse one value and require only whitespace after
it.  `none` models a raised `JSONDecodeError`. -/
def jsonLoads (s : Str) : Option JVal :=
  match pVal (2 * s.length + 8) (skipWs s) with
  | some (v, rest) => if skipWs rest = [] then some v else none
  | none => none

/-- String value stored under key `k` of a parsed JSON object, if any. -/
def getStr (v : JVal) (k : Str) : Option Str :=
  match v with
  | jobj l =>
      match oLookup l k with
      | some (jstr s) => some s
      | _ => none
  | _ => none

/-- Does a parsed JSON object carry key `k` (Python's `k in obj`)? -/
def hasKey (v : JVal) (k : Str) : Bool :=
  match v with
  | jobj l => l.any (fun p => p.1 = k)
  | _ => false

/-- Lowercase hexadecimal digit, as Python's `%04x` formatting emits. -/
def hexDigit (n : Nat) : Char :=
  if n < 10 then Char.ofNat ('0'.toNat + n) else Char.ofNat ('a'.toNat + n - 10)

/-- One `\uXXXX` escape. -/
def uEsc (n : Nat) : Str :=
  ['\\', 'u', hexDigit (n / 4096 % 16), hexDigit (n / 256 % 16),
   hexDigit (n / 16 % 16), hexDigit (n % 16)]

/-- Escape one character the way `json.dumps` (default `ensure_ascii=True`)
does. -/
def escChar (c : Char) : Str :=
  if c = '"' then ['\\', '"']
  else if c = '\\' then ['\\', '\\']
  else if c = '\n' then ['\\', 'n']
  else if c = '\r' then ['\\', 'r']
  else if c = '\t' then ['\\', 't']
  else if c = '\x08' then ['\\', 'b']
  else if c = '\x0c' then ['\\', 'f']
  else if c.toNat < 32 ∨ c.toNat > 126 then
    if c.toNat ≥ 65536 then
      let m := c.toNat - 65536
      uEsc (55296 + m / 1024) ++ uEsc (56320 + m % 1024)
    else uEsc c.toNat
  else [c]

/-- Serialized body of a string for `json.dumps`. -/
def dumpStrBody (s : Str) : Str := (s.map escChar).flatten

/-- Model of `json.dumps` with the default separators `", "` and `": "`.
Numbers are emitted as their stored lexeme (see `JVal.jnum`). -/
def dumpVal : Nat → JVal → Str
  | 0, _ => []
  | _ + 1, jnull => chars "null"
  | _ + 1, jbool true => chars "true"
  | _ + 1, jbool false => chars "false"
  | _ + 1, jnum lex => lex
  | _ + 1, jstr s => '"' :: (dumpStrBody s ++ ['"'])
  | _ + 1, jarr [] => chars "[]"
  | fuel + 1, jarr (x :: xs) =>
      '[' :: (dumpVal fuel x ++
        ((xs.map (fun e => chars ", " ++ dumpVal fuel e)).flatten ++ [']']))
  | _ + 1, jobj [] => chars "\x7b\x7d"
  | fuel + 1, jobj (p :: ps) =>
      let pair := fun (q : Str × JVal) =>
        ('"' :: (dumpStrBody q.1 ++ ['"'])) ++ chars ": " ++ dumpVal fuel q.2
      '\x7b' :: (pair p ++ (((ps.map (fun q => chars ", " ++ pair q)).flatten) ++ ['\x7d']))

/-- Fuel wrapper for `dumpVal`.  Every value the pipeline dumps was parsed
out of a substring of the stage's input string, so its nesting depth is
bounded by that string's length; callers pass `length + 2` as fuel, which
therefore never runs out. -/
def pyDumps (fuel : Nat) (v : JVal) : Str := dumpVal fuel v

/-- Python-dict `setdefault`: insert `k ↦ v` only when `k` is absent. -/
def objSetD (l : List (Str × JVal)) (k : Str) (v : JVal) : List (Str × JVal) :=
  if l.any (fun p => p.1 = k) then l else l ++ [(k, v)]

/-- Removal of every occurrence of the fence marker, modelling
`re.sub(r'```json\s*', '', s)` (the greedy `\s*` swallows the following
whitespace run, and scanning resumes after each match). -/
def stripFenceJson : Nat → Str → Str
  | 0, s => s
  | _, [] => []
  | fuel + 1, c :: rest =>
      if strStarts (c :: rest) (chars "```json") then
        stripFenceJson fuel (((c :: rest).drop 7).dropWhile isPyWs)
      else c :: stripFenceJson fuel rest

/-- Model of `re.sub(r'```\s*$', '', s)`: cut the string at the first
position whose suffix is three backticks followed only by whitespace. -/
def stripFenceEnd : Str → Str
  | [] => []
  | c :: rest =>
      if strStarts (c :: rest) (chars "```") ∧ ((c :: rest).drop 3).all isPyWs then []
      else c :: stripFenceEnd rest

/-- The shared preamble of the repair stages: drop markdown fencing and strip
surrounding whitespace. -/
def cleanBlob (s : Str) : Str :=
  pyStrip (stripFenceEnd (stripFenceJson s.length s))

/-- Helper for the trailing-comma rewrite: a whitespace run followed by a
closing brace or bracket. -/
def wsCloser (s : Str) : Option (Str × Char × Str) :=
  let ws := s.takeWhile isPyWs
  match s.drop ws.length with
  | c :: rest => if c = '}' ∨ c = ']' then some (ws, c, rest) else none
  | [] => none

/-- Model of `re.sub(r',(\s*[}\]])', r'\1', s)`: drop each comma that is
separated from a closing brace/bracket only by whitespace, resuming the scan
after the closer. -/
def rtcGo : Nat → Str → Str
  | 0, s => s
  | _, [] => []
  | fuel + 1, c :: rest =>
      if c = ',' then
        match wsCloser rest with
        | some (ws, cl, rest2) => ws ++ cl :: rtcGo fuel rest2
        | none => c :: rtcGo fuel rest
      else c :: rtcGo fuel rest

/-- Fuel wrapper for `rtcGo`. -/
def removeTrailingCommas (s : Str) : Str := rtcGo s.length s

/-- Lookahead of the quote-escaping rewrite: does the remainder contain, on
the current line, a quote immediately followed by a colon (regex `.*":`)? -/
def qcAhead : Str → Bool
  | c1 :: c2 :: rest =>
      if c1 = '"' ∧ c2 = ':' then true
      else if c1 = '\n' then false
      else qcAhead (c2 :: rest)
  | _ => false

/-- Model of `re.sub(r'(?<!\\)"(?=.*":)', r'\\"', s)`: every quote that is
not preceded by a backslash and is later followed (same line) by a
quote-colon pair gets a backslash inserted before it. -/
def escQGo (prev : Option Char) : Str → Str
  | [] => []
  | c :: rest =>
      if c = '"' ∧ prev ≠ some '\\' ∧ qcAhead rest then
        '\\' :: '"' :: escQGo (some c) rest
      else c :: escQGo (some c) rest

/-- Entry point of the quote-escaping rewrite. -/
def escQuotes (s : Str) : Str := escQGo none s

/-- Count-based closer padding shared by several stages: append the excess of
`{` over `}` as closing braces, then the excess of `[` over `]` as closing
brackets (a negative excess appends nothing, like `'}' * n` in Python). -/
def padClosers (s : Str) : Str :=
  s ++ List.replicate ((s.count '{' : Int) - (s.count '}' : Int)).toNat '}'
    ++ List.replicate ((s.count '[' : Int) - (s.count ']' : Int)).toNat ']'

/-- The envelope pieces used by the field-extraction stages (source lines
247, 293, 342, 387 build the same f-string). -/
def envHead : Str := chars "\x7b\"extracted_fields\": "

/-- Tail of the minimal-JSON envelope. -/
def envTail : Str :=
  chars ", \"all_checkboxes\": \x7b\"all_checkboxes_summary\": \x7b\x7d\x7d, \"sample_analysis_mapping\": \x7b\"sample_ids\": [], \"analysis_request\": [], \"sample_analysis_map\": \x7b\x7d\x7d, \"sample_ids\": [], \"analysis_request\": []\x7d"

/-- Is a parsed value an object (Python `isinstance(v, dict)`)? -/
def isJObj : JVal → Bool
  | jobj _ => true
  | _ => false

/-- Scanner state of `extract_any_complete_fields`: accumulated recovered
field objects, the fragment being collected, the running brace depth and the
in-fragment flag. -/
structure AcfSt : Type where
  fields : List JVal
  cur : Str
  count : Int
  inField : Bool

/-- One character step of the `extract_any_complete_fields` scan (source
lines 315-337): fragments are depth-balanced `\x7b...\x7d` spans; a closed
fragment is kept when it parses to an object containing the key `key`. -/
def acfStep (st : AcfSt) (c : Char) : AcfSt :=
  let cur0 := st.cur ++ [c]
  if c = '{' then
    if ¬ st.inField then ⟨st.fields, [c], st.count + 1, true⟩
    else ⟨st.fields, cur0, st.count + 1, st.inField⟩
  else if c = '}' then
    let count' := st.count - 1
    if count' = 0 ∧ st.inField then
      let fields' :=
        match jsonLoads cur0 with
        | some v =>
            if isJObj v && hasKey v (chars "key") then
              st.fields ++ [v]
            else st.fields
        | none => st.fields
      ⟨fields', [], count', false⟩
    else ⟨st.fields, cur0, count', st.inField⟩
  else ⟨st.fields, cur0, st.count, st.inField⟩

/-- Model of `extract_any_complete_fields` (source lines 304-354). -/
def extract_any_complete_fields (s : Str) (arrayStart : Nat) : Option Str :=
  let st := (s.drop arrayStart).foldl acfStep ⟨[], [], 0, false⟩
  if st.fields.isEmpty then none
  else
    let minimal := envHead ++ pyDumps (s.length + 2) (jarr st.fields) ++ envTail
    match jsonLoads minimal with
    | some _ => some minimal
    | none => none

/-- Backward scan of `extract_last_complete_fields` (source lines 268-278):
walk indices from the end down to `stop + 1`, counting `\x7d` up and `\x7b`
down; when the count reaches zero at a `\x7b` whose successor is a comma or a
closing bracket, report that successor position. -/
def lcfScan (s : Str) (stop : Nat) (count : Int) (i : Nat) : Option Nat :=
  if i ≤ stop then none
  else
    let c := s.getD i ' '
    if c = '}' then lcfScan s stop (count + 1) (i - 1)
    else if c = '{' then
      let count' := count - 1
      if count' = 0 ∧ (i + 1 < s.length ∧ (s.getD (i + 1) ' ' = ',' ∨ s.getD (i + 1) ' ' = ']')) then
        some (i + 1)
      else lcfScan s stop count' (i - 1)
    else lcfScan s stop count (i - 1)
termination_by i
decreasing_by all_goals omega

/-- Model of `extract_last_complete_fields` (source lines 258-302). -/
def extract_last_complete_fields (s : Str) (arrayStart : Nat) : Option Str :=
  match lcfScan s arrayStart 0 (s.length - 1) with
  | none => extract_any_complete_fields s arrayStart
  | some lcp =>
      let partArr := (s.drop arrayStart).take (lcp - arrayStart)
      let partArr2 := if strEnds partArr (chars "]") then partArr else partArr ++ [']']
      let minimal := envHead ++ partArr2 ++ envTail
      match jsonLoads minimal with
      | some _ => some minimal
      | none => extract_any_complete_fields s arrayStart

/-- Forward depth-counted search for the bracket closing the array that
starts at index `idx` (source lines 229-236). -/
def fwdFindClose (count : Int) (idx : Nat) : Str → Option Nat
  | [] => none
  | c :: rest =>
      if c = '[' then fwdFindClose (count + 1) (idx + 1) rest
      else if c = ']' then
        let count' := count - 1
        if count' = 0 then some idx else fwdFindClose count' (idx + 1) rest
      else fwdFindClose count (idx + 1) rest

/-- Model of `extract_extracted_fields_only` (source lines 206-256).  Note
that on the found-end path the slice starts at the marker itself, so the
envelope embeds `"extracted_fields": ` twice and the parse test fails; the
translation reproduces this faithfully. -/
def extract_extracted_fields_only (s0 : Str) : Option Str :=
  let s := cleanBlob s0
  let marker := chars "\"extracted_fields\": ["
  let fp := strFind s marker
  if fp = -1 then none
  else
    let startPos := fp.toNat
    let arrayStart := startPos + marker.length - 1
    match fwdFindClose 0 arrayStart (s.drop arrayStart) with
    | none => extract_last_complete_fields s arrayStart
    | some endPos =>
        let efs := (s.drop startPos).take (endPos + 1 - startPos)
        let minimal := envHead ++ efs ++ envTail
        match jsonLoads minimal with
        | some _ => some minimal
        | none => none

/-- Progressive prefix search of `extract_largest_valid_json` (source lines
180-197): try each percentage of the length, padding closers, first parse
wins; fall through to `extract_extracted_fields_only`. -/
def elvjTry (s : Str) : List Nat → Option Str
  | [] => extract_extracted_fields_only s
  | p :: ps =>
      let t2 := padClosers (s.take (s.length * p / 100))
      match jsonLoads t2 with
      | some _ => some t2
      | none => elvjTry s ps

/-- Model of `extract_largest_valid_json` (source lines 166-204).  Python
computes `int(original_length * percentage / 100)` in floating point; the
natural-number quotient below agrees with it for every realistic length. -/
def extract_largest_valid_json (s0 : Str) : Option Str :=
  elvjTry (cleanBlob s0) [95, 90, 85, 80, 75, 70, 65, 60, 55, 50]

/-- Backward matching-opener search of `repair_truncated_json` (source lines
119-146), applied to the reversed prefix ending at the last closer: closers
count up, openers count down, success when the count reaches zero. -/
def backScan (openC closeC : Char) (count : Int) : Str → Bool
  | [] => false
  | c :: rest =>
      if c = closeC then backScan openC closeC (count + 1) rest
      else if c = openC then
        let count' := count - 1
        if count' = 0 then true else backScan openC closeC count' rest
      else backScan openC closeC count rest

/-- Model of `repair_truncated_json` (source lines 102-164).  The cut keeps
everything up to the last closing brace (resp. bracket) when a depth-matched
opener exists, otherwise the whole string (the `for`-`else` branch); the
parse failure path falls back to `extract_largest_valid_json` applied to the
already-stripped string, as the `except` clause does. -/
def repair_truncated_json (s0 : Str) : Option Str :=
  let s := cleanBlob s0
  let lb := strRFind s '}'
  let lk := strRFind s ']'
  let truncated :=
    if lb > lk then
      if backScan '{' '}' 0 ((s.take (lb.toNat + 1)).reverse) then s.take (lb.toNat + 1) else s
    else
      if backScan '[' ']' 0 ((s.take (lk.toNat + 1)).reverse) then s.take (lk.toNat + 1) else s
  let t2 := padClosers truncated
  match jsonLoads t2 with
  | some _ => some t2
  | none => extract_largest_valid_json s

/-- Model of `repair_json` (source lines 69-100): strip fencing, drop
trailing commas, run the quote-escaping rewrite, pad closers, then test the
result; `none` models the `except` branch returning `None`. -/
def repair_json (s0 : Str) : Option Str :=
  let s4 := padClosers (escQuotes (removeTrailingCommas (cleanBlob s0)))
  match jsonLoads s4 with
  | some _ => some s4
  | none => none

/-- Case-insensitive literal matcher for the emergency regex (the pattern's
literals are lower-case and `re.IGNORECASE` is set). -/
def mLitCI (lit s : Str) : Option Str :=
  if lit.length ≤ s.length ∧ (s.take lit.length).map lowChar = lit then some (s.drop lit.length)
  else none

/-- Single-character matcher. -/
def mChar (c : Char) (s : Str) : Option Str :=
  match s with
  | x :: rest => if x = c then some rest else none
  | [] => none

/-- Matcher for `"[^"]*"`. -/
def mQuoted (s : Str) : Option Str :=
  match s with
  | '"' :: rest =>
      let body := rest.takeWhile (fun c => c ≠ '"')
      match rest.drop body.length with
      | '"' :: rest2 => some rest2
      | _ => none
  | _ => none

/-- Match the emergency field pattern
`\x7b\s*"key"\s*:\s*"[^"]*"\s*,\s*"value"\s*:\s*"[^"]*"\s*,\s*"type"\s*:\s*"[^"]*"`
at the head of `s`, returning the length of the match. -/
def fieldPatMatch (s : Str) : Option Nat :=
  (do
    let r1 ← mChar '{' s
    let r2 ← mLitCI (chars "\"key\"") (r1.dropWhile isPyWs)
    let r3 ← mChar ':' (r2.dropWhile isPyWs)
    let r4 ← mQuoted (r3.dropWhile isPyWs)
    let r5 ← mChar ',' (r4.dropWhile isPyWs)
    let r6 ← mLitCI (chars "\"value\"") (r5.dropWhile isPyWs)
    let r7 ← mChar ':' (r6.dropWhile isPyWs)
    let r8 ← mQuoted (r7.dropWhile isPyWs)
    let r9 ← mChar ',' (r8.dropWhile isPyWs)
    let r10 ← mLitCI (chars "\"type\"") (r9.dropWhile isPyWs)
    let r11 ← mChar ':' (r10.dropWhile isPyWs)
    let r12 ← mQuoted (r11.dropWhile isPyWs)
    pure (s.length - r12.length))

/-- Model of `re.findall` for the emergency field pattern: non-overlapping
matches, scanning left to right. -/
def findFieldPats : Nat → Str → List Str
  | 0, _ => []
  | _, [] => []
  | fuel + 1, c :: rest =>
      match fieldPatMatch (c :: rest) with
      | some len => (c :: rest).take len :: findFieldPats fuel ((c :: rest).drop len)
      | none => findFieldPats fuel rest

/-- Model of `emergency_field_extraction` (source lines 356-399): regex-scan
the raw text for minimal record shapes, close each with `\x7d`, keep those
parsing to objects with `key` and `value`, fill `page`/`method` defaults,
re-serialize into the envelope and test. -/
def emergency_field_extraction (s : Str) : Option Str :=
  let ms := findFieldPats s.length s
  let fields := ms.foldl (fun acc m =>
    match jsonLoads (m ++ ['}']) with
    | some v =>
        if isJObj v && hasKey v (chars "key") && hasKey v (chars "value") then
          match v with
          | jobj l =>
              acc ++ [jobj (objSetD (objSetD l (chars "page") (jnum (chars "1")))
                (chars "method") (jstr (chars "AI Vision")))]
          | _ => acc
        else acc
    | none => acc) []
  if fields.isEmpty then none
  else
    let minimal := envHead ++ pyDumps (s.length + 2) (jarr fields) ++ envTail
    match jsonLoads minimal with
    | some _ => some minimal
    | none => none

/-- The call-site repair cascade (source lines 630-707): direct parse, then
`repair_json`, then `repair_truncated_json`, then `emergency_field_extraction`
(which the source consults twice on the final branch), first success wins;
`none` models the `continue` that skips the unit. -/
def recover_cascade (s : Str) : Option Str :=
  match jsonLoads s with
  | some _ => some s
  | none =>
      match repair_json s with
      | some r =>
          match jsonLoads r with
          | some _ => some r
          | none =>
              match repair_truncated_json s with
              | some t =>
                  match jsonLoads t with
                  | some _ => some t
                  | none => none
              | none =>
                  match emergency_field_extraction s with
                  | some e =>
                      match jsonLoads e with
                      | some _ => some e
                      | none => none
                  | none => none
      | none =>
          match repair_truncated_json s with
          | some t =>
              match jsonLoads t with
              | some _ => some t
              | none => none
          | none =>
              match emergency_field_extraction s with
              | some e =>
                  match jsonLoads e with
                  | some _ => some e
                  | none => none
              | none =>
                  match emergency_field_extraction s with
                  | some e =>
                      match jsonLoads e with
                      | some _ => some e
                      | none => none
                  | none => none

/-- Records recovered from an array-encoded input: the elements of the array
the cascade's winning stage produced (claims C3's notion of "recovered
records"). -/
def recoveredRecords (s : Str) : List JVal :=
  match recover_cascade s with
  | some t =>
      match jsonLoads t with
      | some (jarr l) => l
      | _ => []
  | none => []

/-- Model of `normalize_checkbox_value` (source lines 454-461); `none` is
Python's `None` argument. -/
def normalize_checkbox_value (value : Option Str) : Str :=
  match value with
  | none => chars "unchecked"
  | some v =>
      if v = [] ∨ lowStr v ∈ [chars "nil", chars "n/a", chars "-", chars ""] then
        chars "unchecked"
      else if lowStr v ∈ [chars "checked", chars "x", chars "✓", chars "yes", chars "y"] then
        chars "checked"
      else chars "unchecked"

/-- Character class `[a-zA-Z0-9._%+-]` of the email pattern. -/
def emailLocalClass (c : Char) : Bool :=
  c.isAlpha ∨ c.isDigit ∨ c = '.' ∨ c = '_' ∨ c = '%' ∨ c = '+' ∨ c = '-'

/-- Character class `[a-zA-Z0-9.-]` of the email pattern. -/
def emailDomClass (c : Char) : Bool :=
  c.isAlpha ∨ c.isDigit ∨ c = '.' ∨ c = '-'

/-- Model of `re.match(r'^[a-zA-Z0-9._%+-]+@[a-zA-Z0-9.-]+\.[a-zA-Z]\x7b2,\x7d$', v)`
(source line 868).  Every character class excludes `@`, so the split at the
first `@` is forced; backtracking over the domain part becomes an existential
over the position of the final dot.  Values reaching this matcher are
stripped, so `$` coincides with end-of-string. -/
def emailMatch (s : Str) : Bool :=
  let a := s.takeWhile (fun c => c ≠ '@')
  match s.drop a.length with
  | '@' :: rest =>
      (a ≠ [] ∧ a.all emailLocalClass) ∧
      (List.range rest.length).any (fun i =>
        0 < i ∧ (rest.take i).all emailDomClass ∧ rest.getD i '@' = '.' ∧
        (rest.drop (i + 1)).all (fun c : Char => c.isAlpha) ∧ 2 ≤ rest.length - (i + 1))
  | _ => false

/-- Character class `[\d\s\-\(\)\+\.]` of the phone pattern (source line 879;
`\d` and `\s` are modelled over their ASCII members, which covers the
pipeline's inputs). -/
def phoneClass (c : Char) : Bool :=
  c.isDigit ∨ isPyWs c ∨ c = '-' ∨ c = '(' ∨ c = ')' ∨ c = '+' ∨ c = '.'

/-- The phone branch's digit-count test (source line 880): characters left
after removing spaces, dashes, parentheses, plus and dot. -/
def phoneDigitCount (s : Str) : Nat :=
  (s.filter (fun c => ¬ (c = ' ' ∨ c = '-' ∨ c = '(' ∨ c = ')' ∨ c = '+' ∨ c = '.'))).length

/-- Model of `^\d\x7b1,2\x7d[dash-or-slash]\d\x7b1,2\x7d[dash-or-slash]\d\x7b2,4\x7d$` (source
lines 891-892). -/
def dateMDY (s : Str) : Bool :=
  let d1 := s.takeWhile (fun c : Char => c.isDigit)
  match s.drop d1.length with
  | sep1 :: r2 =>
      decide ((sep1 = '-' ∨ sep1 = '/') ∧ 1 ≤ d1.length ∧ d1.length ≤ 2) &&
      (let d2 := r2.takeWhile (fun c : Char => c.isDigit)
       match r2.drop d2.length with
       | sep2 :: r4 =>
           decide ((sep2 = '-' ∨ sep2 = '/') ∧ 1 ≤ d2.length ∧ d2.length ≤ 2) &&
           r4.all (fun c : Char => c.isDigit) && decide (2 ≤ r4.length ∧ r4.length ≤ 4)
       | [] => false)
  | [] => false

/-- Model of `^\d\x7b4\x7d[dash-or-slash]\d\x7b1,2\x7d[dash-or-slash]\d\x7b1,2\x7d$` (source line
893). -/
def dateYMD (s : Str) : Bool :=
  let d1 := s.takeWhile (fun c : Char => c.isDigit)
  match s.drop d1.length with
  | sep1 :: r2 =>
      decide ((sep1 = '-' ∨ sep1 = '/') ∧ d1.length = 4) &&
      (let d2 := r2.takeWhile (fun c : Char => c.isDigit)
       match r2.drop d2.length with
       | sep2 :: r4 =>
           decide ((sep2 = '-' ∨ sep2 = '/') ∧ 1 ≤ d2.length ∧ d2.length ≤ 2) &&
           r4.all (fun c : Char => c.isDigit) && decide (1 ≤ r4.length ∧ r4.length ≤ 2)
       | [] => false)
  | [] => false

/-- Model of `^\d\x7b1,2\x7d:\d\x7b2\x7d$` (source line 906). -/
def timeHM (s : Str) : Bool :=
  let d1 := s.takeWhile (fun c : Char => c.isDigit)
  match s.drop d1.length with
  | ':' :: r2 =>
      decide (1 ≤ d1.length ∧ d1.length ≤ 2) && r2.all (fun c : Char => c.isDigit) &&
        decide (r2.length = 2)
  | _ => false

/-- Model of `^\d\x7b3,4\x7d$` (source line 907). -/
def timeHHMM (s : Str) : Bool :=
  s.all (fun c : Char => c.isDigit) && decide (3 ≤ s.length ∧ s.length ≤ 4)

/-- Model of `^\d\x7b1,2\x7d:\d\x7b2\x7d\s*[AP]M$` (source line 908). -/
def timeAMPM (s : Str) : Bool :=
  let d1 := s.takeWhile (fun c : Char => c.isDigit)
  match s.drop d1.length with
  | ':' :: r2 =>
      decide (1 ≤ d1.length ∧ d1.length ≤ 2) &&
      (let ds := r2.take 2
       decide (ds.length = 2) && ds.all (fun c : Char => c.isDigit) &&
       (match (r2.drop 2).dropWhile isPyWs with
        | [a, 'M'] => decide (a = 'A' ∨ a = 'P')
        | _ => false))
  | _ => false

/-- Upper-case ASCII letter. -/
def isUpAlpha (c : Char) : Bool := 'A' ≤ c ∧ c ≤ 'Z'

/-- Model of `^[A-Z]\x7b1,3\x7d-\d\x7b1,3\x7d[A-Z]?$` (source line 920). -/
def sampleIdDash (s : Str) : Bool :=
  let ls := s.takeWhile isUpAlpha
  match s.drop ls.length with
  | '-' :: r2 =>
      decide (1 ≤ ls.length ∧ ls.length ≤ 3) &&
      (let ds := r2.takeWhile (fun c : Char => c.isDigit)
       decide (1 ≤ ds.length ∧ ds.length ≤ 3) &&
       (match r2.drop ds.length with
        | [] => true
        | [c] => isUpAlpha c
        | _ => false))
  | _ => false

/-- Model of `^[A-Z]\x7b1,3\x7d\d\x7b1,3\x7d[A-Z]?$` (source line 923). -/
def sampleIdPlain (s : Str) : Bool :=
  let ls := s.takeWhile isUpAlpha
  decide (1 ≤ ls.length ∧ ls.length ≤ 3) &&
  (let r2 := s.drop ls.length
   let ds := r2.takeWhile (fun c : Char => c.isDigit)
   decide (1 ≤ ds.length ∧ ds.length ≤ 3) &&
   (match r2.drop ds.length with
    | [] => true
    | [c] => isUpAlpha c
    | _ => false))

/-- Model of `^\d\x7b4\x7d$` (source line 933). -/
def fourDigits (s : Str) : Bool :=
  s.all (fun c : Char => c.isDigit) && decide (s.length = 4)

/-- The value as `validate_field_value` sees it (source line 856): a missing
or falsy value becomes the empty string, any other value is stripped. -/
def normValue (field_value : Option Str) : Str :=
  match field_value with
  | none => []
  | some v => if v = [] then [] else pyStrip v

/-- The placeholder vocabulary of `validate_field_value` (source line 862),
compared against the upper-cased value. -/
def placeholderVocab : List Str :=
  [chars "NIL", chars "N/A", chars "-", chars "", chars "NULL", chars "EMPTY"]

/-- The confidence score and validation note of `validate_field_value`'s
non-placeholder branches (source lines 865-978): the Python code assigns
`confidence_score` and `validation_notes` in one `elif` chain over the
normalized key and returns them with the value. -/
def validateConfNote (key value : Str) : ℚ × List Str :=
  if strHas key (chars "email") then
    if emailMatch value then (mkRat 9 10, [chars "Valid email format"])
    else (mkRat 3 10, [chars "Invalid email format"])
  else if strHas key (chars "phone") then
    if (value ≠ [] ∧ value.all phoneClass) ∧ 10 ≤ phoneDigitCount value then
      (mkRat 8 10, [chars "Valid phone format"])
    else (mkRat 4 10, [chars "Questionable phone format"])
  else if strHas key (chars "date") then
    if dateMDY value ∨ dateYMD value then (mkRat 8 10, [chars "Valid date format"])
    else (mkRat 4 10, [chars "Questionable date format"])
  else if strHas key (chars "time") then
    if timeHM (upStr value) ∨ timeHHMM (upStr value) ∨ timeAMPM (upStr value) then
      (mkRat 8 10, [chars "Valid time format"])
    else (mkRat 4 10, [chars "Questionable time format"])
  else if strHas key (chars "sample") ∧ strHas key (chars "id") then
    if sampleIdDash (upStr value) then (mkRat 9 10, [chars "Valid sample ID format"])
    else if sampleIdPlain (upStr value) then
      (mkRat 8 10, [chars "Valid sample ID format (no dash)"])
    else (mkRat 1 2, [chars "Non-standard sample ID format"])
  else if strHas key (chars "analysis") ∨
      ([chars "8240", chars "8080", chars "TPH", chars "8260", chars "8270"].any
        (fun code => strHas (upStr value) code)) then
    if fourDigits value ∨
        upStr value ∈ [chars "TPH", chars "VOC", chars "SVOC", chars "PESTICIDES"] then
      (mkRat 9 10, [chars "Valid analysis code"])
    else (mkRat 6 10, [chars "Questionable analysis code"])
  else if strHas key (chars "matrix") then
    if upStr value ∈ [chars "DW", chars "SW", chars "GW", chars "WW", chars "S",
        chars "SOIL", chars "AIR", chars "WATER"] then
      (mkRat 9 10, [chars "Valid matrix type"])
    else (mkRat 6 10, [chars "Non-standard matrix type"])
  else if strHas key (chars "comp") ∨ strHas key (chars "grab") then
    if upStr value ∈ [chars "G", chars "C", chars "Grab", chars "Composite",
        chars "Grab Sample", chars "Composite Sample"] then
      (mkRat 9 10, [chars "Valid comp/grab value"])
    else (mkRat 6 10, [chars "Non-standard comp/grab value"])
  else if strHas key (chars "container") ∨ strHas key (chars "cont") then
    if pyIsDigit value ∧ 1 ≤ digitsToNat value ∧ digitsToNat value ≤ 100 then
      (mkRat 8 10, [chars "Reasonable container count"])
    else if pyIsDigit value then (mkRat 6 10, [chars "Unusual container count"])
    else (mkRat 4 10, [chars "Non-numeric container count"])
  else
    if 0 < value.length then (mkRat 7 10, [chars "Non-empty text field"])
    else (mkRat 3 10, [chars "Empty text field"])

/-- Model of `validate_field_value` (source lines 853-980): normalize the
key, strip the value (an absent or falsy value becomes the empty string),
replace placeholder values by the sentinel `NIL` with confidence `0.5`, and
otherwise return the value with its shape-derived confidence and note. -/
def validate_field_value (field_key : Str) (field_value : Option Str) (_ty : Str) :
    Str × ℚ × List Str :=
  let key := pyStrip (lowStr field_key)
  let value := normValue field_value
  if upStr value ∈ placeholderVocab then
    (chars "NIL", mkRat 1 2, [chars "Empty field"])
  else
    (value, validateConfNote key value)

/-- The retention test of `extract_comprehensive` (source line 1739): a
validated field is kept when its confidence is at least `0.3` or its value is
not the sentinel. -/
def keepValidatedField (field_key : Str) (field_value : Option Str) (ty : Str) : Bool :=
  let r := validate_field_value field_key field_value ty
  decide (mkRat 3 10 ≤ r.2.1) || decide (r.1 ≠ chars "NIL")

/-- The validation filter of `extract_comprehensive` over a field sequence
(fields are `(key, value, type)` triples). -/
def filterValidated (fields : List (Str × Option Str × Str)) :
    List (Str × Option Str × Str) :=
  fields.filter (fun f => keepValidatedField f.1 f.2.1 f.2.2)

/-- Number of distinct elements of a list, i.e. the cardinality of the set a
Python `set(...)` call would build from it. -/
def setCard (l : List Str) : Nat :=
  match l with
  | [] => 0
  | x :: xs => if x ∈ xs then setCard xs else setCard xs + 1

/-- Model of `_calculate_similarity`, continued: the word lists stand in for
Python's sets, `setCard` for set cardinality (a set built from a list is
empty exactly when the list is). -/
def calculate_similarity (str1 str2 : Str) : ℚ :=
  if str1 = [] ∨ str2 = [] then 0
  else
    let words1 := pySplitWs str1
    let words2 := pySplitWs str2
    if words1 = [] ∨ words2 = [] then 0
    else
      let interCard := setCard (words1.filter (fun w => w ∈ words2))
      let unionCard := setCard (words1 ++ words2)
      if unionCard = 0 then 0 else mkRat interCard unionCard

/-- A field record as the matcher sees it. -/
structure EField : Type where
  key : Str
  value : Str
  deriving DecidableEq

/-- One row of the detailed mapping (the fields claim C7 speaks about). -/
structure MapEntry : Type where
  template : EField
  filled : Option EField
  score : ℚ
  matched : Bool
  deriving DecidableEq

/-- The best-candidate fold of `_create_detailed_mapping` (enhanced_extractor
lines 333-344): keep a running best match, accepting a candidate only when
its score beats both the running best and the `0.6` threshold (the exact
rational `3/5`; no achievable Jaccard score lies close enough to `0.6` for
the float comparison to differ). -/
def bfStep (tk : Str) (acc : Option EField × ℚ) (f : EField) : Option EField × ℚ :=
  let sc := calculate_similarity tk (pyStrip (lowStr f.key))
  if sc > acc.2 ∧ sc > mkRat 3 5 then (some f, sc) else acc

/-- The whole best-candidate scan, started from "no match, score 0". -/
def bestFilled (tk : Str) (ffs : List EField) : Option EField × ℚ :=
  ffs.foldl (bfStep tk) (none, 0)

/-- Model of `_create_detailed_mapping` (enhanced_extractor lines 325-359):
one entry per template field, `is_matched` exactly when a best match was
found. -/
def create_detailed_mapping (tfs ffs : List EField) : List MapEntry :=
  tfs.map (fun tf =>
    let r := bestFilled (pyStrip (lowStr tf.key)) ffs
    ⟨tf, r.1, r.2, r.1.isSome⟩)

/-- A record as `restructure_sample_data` consumes it (`key`, `value`,
`type`, optional `sample_id`, optional `analysis_name`). -/
structure SField : Type where
  key : Str
  value : Str
  ftype : Str
  sample_id : Option Str
  analysis_name : Option Str
  deriving DecidableEq

/-- The per-sample canonical row built by `restructure_sample_data` (source
lines 1024-1037).  Python initializes `analysis_request` to an empty dict
that is always overwritten before the row is emitted; the model starts it at
the empty string. -/
structure SampleInfo : Type where
  customer_sample_id : Str
  matrix : Str
  comp_grab : Str
  start_date : Str
  start_time : Str
  end_date : Str
  end_time : Str
  cont : Str
  rc_result : Str
  rc_units : Str
  comment : Str
  analysis_request : Str
  deriving DecidableEq

/-- The sentinel value. -/
def nilS : Str := chars "NIL"

/-- The row every sample starts from: every slot `NIL`. -/
def initSampleInfo (sid : Str) : SampleInfo :=
  ⟨sid, nilS, nilS, nilS, nilS, nilS, nilS, nilS, nilS, nilS, nilS, []⟩

/-- Key starts with the given literal. -/
def swp (k : Str) (p : String) : Bool := strStarts k (chars p)

/-- Key ends with the given literal. -/
def ewp (k : Str) (p : String) : Bool := strEnds k (chars p)

/-- Key equals one of the given literals. -/
def kw (k : Str) (ps : List String) : Bool := ps.any (fun p => k = chars p)

/-- Append a field to a keyed group, creating the group if needed. -/
def appendTo (groups : List (Str × List SField)) (k : Str) (f : SField) :
    List (Str × List SField) :=
  if groups.any (fun p => p.1 = k) then
    groups.map (fun p => if p.1 = k then (p.1, p.2 ++ [f]) else p)
  else groups ++ [(k, [f])]

/-- Create an empty keyed group if absent. -/
def ensureKey (groups : List (Str × List SField)) (k : Str) :
    List (Str × List SField) :=
  if groups.any (fun p => p.1 = k) then groups else groups ++ [(k, [])]

/-- The no-attribute arm of the grouping loop (source lines 1000-1010): a
`sample_id`-keyed field moves the cursor to its value; any other field joins
the current cursor's group when the cursor is truthy. -/
def groupFallbackStep (st : List (Str × List SField) × Option Str) (f : SField) :
    List (Str × List SField) × Option Str :=
  let key := lowStr f.key
  if key = chars "sample_id" then
    ((if f.value ≠ [] then ensureKey st.1 f.value else st.1), some f.value)
  else
    match st.2 with
    | some cur => if cur ≠ [] then (appendTo st.1 cur f, st.2) else st
    | none => st

/-- One step of the grouping loop (source lines 990-1010): a `sample_field`
carrying a truthy `sample_id` moves the cursor and joins that group,
otherwise the no-attribute arm applies. -/
def buildGroupsStep (st : List (Str × List SField) × Option Str) (f : SField) :
    List (Str × List SField) × Option Str :=
  if f.ftype = chars "sample_field" then
    match f.sample_id with
    | some sid =>
        if sid ≠ [] then (appendTo st.1 sid f, some sid)
        else groupFallbackStep st f
    | none => groupFallbackStep st f
  else st

/-- The `sample_field_groups` table (source lines 987-1010). -/
def buildGroups (fields : List SField) : List (Str × List SField) :=
  (fields.foldl buildGroupsStep ([], none)).1

/-- Group lookup. -/
def lookupGroup (groups : List (Str × List SField)) (sid : Str) :
    Option (List SField) :=
  (groups.find? (fun p => p.1 = sid)).map (·.2)

/-- Append a value under a key of the fallback table, creating the entry if
needed (Python-dict insertion order). -/
def ftmAdd (m : List (Str × List Str)) (k v : Str) : List (Str × List Str) :=
  if m.any (fun p => p.1 = k) then
    m.map (fun p => if p.1 = k then (p.1, p.2 ++ [v]) else p)
  else m ++ [(k, [v])]

/-- The `field_type_mapping` fallback table (source lines 1013-1020): every
`sample_field`'s lower-cased key mapped to the list of its values, in
encounter order. -/
def buildFTM (fields : List SField) : List (Str × List Str) :=
  fields.foldl (fun m f =>
    if f.ftype = chars "sample_field" then ftmAdd m (lowStr f.key) f.value else m) []

/-- The first branch of the per-sample mapping chain (source lines
1048-1051): the key patterns that assign the `Matrix` slot. -/
def matrixPred (k : Str) : Bool :=
  swp k "matrix_" || ewp k "_matrix" || swp k "matrix_type_sample_" ||
  ewp k "_matrix_type_sample" || kw k ["matrix"]

/-- The second branch (source lines 1052-1055): `Comp/Grab` key patterns. -/
def compGrabPred (k : Str) : Bool :=
  swp k "comp_grab_" || ewp k "_comp_grab" || swp k "grab_comp_" || ewp k "_grab_comp" ||
  kw k ["comp/grab", "comp_grab", "composite_grab", "grab_comp"]

/-- Branch three (source lines 1056-1064): `Composite Start Date` patterns. -/
def startDatePred (k : Str) : Bool :=
  swp k "collected_date_start_" || ewp k "_collected_date_start" ||
  swp k "collected_date_mf_p_i" || ewp k "_collected_date_mf_p_i" ||
  swp k "date_sh_50" || ewp k "_date_sh_50" ||
  swp k "date_collected_sh_50" || ewp k "_date_collected_sh_50" ||
  swp k "composite_start_date_" || ewp k "_composite_start_date" ||
  swp k "collected_as_composite_start_date_" || ewp k "_collected_as_composite_start_date" ||
  swp k "collected_or_composite_start_date_" || ewp k "_collected_or_composite_start_date" ||
  swp k "collected_date_" || ewp k "_collected_date" ||
  kw k ["composite_start_date", "composite start date", "collected_date_mf_p_i",
        "date_sh_50", "date_collected_sh_50"]

/-- Branch four (source lines 1066-1074): `Composite Start Time` patterns. -/
def startTimePred (k : Str) : Bool :=
  swp k "collected_time_start_" || ewp k "_collected_time_start" ||
  swp k "collected_time_mf_p_i" || ewp k "_collected_time_mf_p_i" ||
  swp k "time_sh_50" || ewp k "_time_sh_50" ||
  swp k "time_collected_sh_50" || ewp k "_time_collected_sh_50" ||
  swp k "composite_start_time_" || ewp k "_composite_start_time" ||
  swp k "collected_as_composite_start_time_" || ewp k "_collected_as_composite_start_time" ||
  swp k "collected_or_composite_start_time_" || ewp k "_collected_or_composite_start_time" ||
  swp k "collected_time_" || ewp k "_collected_time" ||
  kw k ["time_collected_composite_start"] ||
  kw k ["composite_start_time", "composite start time", "collected_time_mf_p_i",
        "time_sh_50", "time_collected_sh_50"]

/-- Branch five (source lines 1076-1082): end-date patterns. -/
def endDatePred (k : Str) : Bool :=
  swp k "collected_date_end_" || ewp k "_collected_date_end" ||
  swp k "collected_as_composite_end_date_" || ewp k "_collected_as_composite_end_date" ||
  swp k "collected_at_composite_end_date_" || ewp k "_collected_at_composite_end_date" ||
  swp k "collected_or_composite_end_date_" || ewp k "_collected_or_composite_end_date" ||
  swp k "composite_end_date_" || ewp k "_composite_end_date" ||
  kw k ["composite_end_date", "composite end date", "collected_composite_end_date",
        "collected or composite end date", "date_collected_composite_end",
        "collected_or_composite_end_date"] ||
  swp k "collected_composite_end_date_"

/-- Branch six (source lines 1084-1090): end-time patterns. -/
def endTimePred (k : Str) : Bool :=
  swp k "collected_time_end_" || ewp k "_collected_time_end" ||
  swp k "collected_as_composite_end_time_" || ewp k "_collected_as_composite_end_time" ||
  swp k "collected_at_composite_end_time_" || ewp k "_collected_at_composite_end_time" ||
  swp k "collected_or_composite_end_time_" || ewp k "_collected_or_composite_end_time" ||
  swp k "composite_end_time_" || ewp k "_composite_end_time" ||
  kw k ["time_collected_composite_end"] ||
  kw k ["composite_end_time", "composite end time", "collected_composite_end_time",
        "collected or composite end time", "collected_or_composite_end_time"] ||
  swp k "collected_composite_end_time_"

/-- The container-count branch shared by both passes (source line 1218). -/
def contPred (k : Str) : Bool :=
  swp k "number_containers_" || ewp k "_number_containers" ||
  swp k "number_containers-" || ewp k "-number_containers" ||
  kw k ["# cont", "# cont.", "cont", "number_of_containers", "number of containers",
        "num_containers", "#_cont"]

/-- The residual-result branch shared by both passes (source line 1220). -/
def rcResultPred (k : Str) : Bool :=
  swp k "residual_chlorine_result_" || ewp k "_residual_chlorine_result" ||
  kw k ["result", "residual chlorine result", "residual chloride result",
        "residual_chlorine_result", "residual_chloride_result"]

/-- The residual-units branch shared by both passes (source line 1222). -/
def rcUnitsPred (k : Str) : Bool :=
  swp k "residual_chlorine_units_" || ewp k "_residual_chlorine_units" ||
  kw k ["units", "residual chlorine units", "residual chloride units",
        "residual_chlorine_units", "residual_chloride_units"]

/-- The sample-comment branch shared by both passes (source line 1225). -/
def commentPred (k : Str) : Bool :=
  swp k "sample_comment_" || ewp k "_sample_comment" ||
  swp k "comment_" || ewp k "_comment" ||
  kw k ["sample_comment", "comment", "comments"]

/-- Sample id normalized for the suffix comparison of source lines 1148-1151
(spaces and dashes become underscores). -/
def sidNorm (sid : Str) : Str :=
  pyReplace (pyReplace sid (chars " ") (chars "_")) (chars "-") (chars "_")

/-- The per-sample mapping chain of the grouped pass, one field at a time
(source lines 1041-1226).  `k` is the lower-cased key, `v` the value; each
branch assigns its slot unconditionally except the generic `date`/`time`
branches, which require the slot to still be `NIL`. -/
def applyGrouped (sid : Str) (si : SampleInfo) (f : SField) : SampleInfo :=
  let k := lowStr f.key
  let v := f.value
  if matrixPred k then { si with matrix := v }
  else if compGrabPred k then { si with comp_grab := v }
  else if startDatePred k then { si with start_date := v }
  else if startTimePred k then { si with start_time := v }
  else if endDatePred k then { si with end_date := v }
  else if endTimePred k then { si with end_time := v }
  else if kw k ["collected_or_composite_end_date"] then { si with end_date := v }
  else if kw k ["collected_or_composite_end_time"] then { si with end_time := v }
  else if swp k "collected_or_composite_end_date_laj_410" ||
      ewp k "_collected_or_composite_end_date_laj_410" then { si with end_date := v }
  else if swp k "collected_or_composite_end_time_laj_410" ||
      ewp k "_collected_or_composite_end_time_laj_410" then { si with end_time := v }
  else if swp k "collected_at_composite_end_date_laj_410" ||
      ewp k "_collected_at_composite_end_date_laj_410" then { si with end_date := v }
  else if swp k "collected_at_composite_end_time_laj_410" ||
      ewp k "_collected_at_composite_end_time_laj_410" then { si with end_time := v }
  else if swp k "collected_composite_end_date_yot_810" ||
      ewp k "_collected_composite_end_date_yot_810" then { si with end_date := v }
  else if swp k "collected_composite_end_time_yot_810" ||
      ewp k "_collected_composite_end_time_yot_810" then { si with end_time := v }
  else if swp k "composite_start_date_laj_410" ||
      ewp k "_composite_start_date_laj_410" then { si with start_date := v }
  else if swp k "composite_start_time_laj_410" ||
      ewp k "_composite_start_time_laj_410" then { si with start_time := v }
  else if swp k "collected_as_composite_start_date_eqo_271" ||
      ewp k "_collected_as_composite_start_date_eqo_271" then { si with start_date := v }
  else if swp k "collected_as_composite_start_time_eqo_271" ||
      ewp k "_collected_as_composite_start_time_eqo_271" then { si with start_time := v }
  else if swp k "collected_as_composite_start_date_" ||
      ewp k "_collected_as_composite_start_date" then { si with start_date := v }
  else if swp k "collected_as_composite_start_time_" ||
      ewp k "_collected_as_composite_start_time" then { si with start_time := v }
  else if swp k "collected_date_mw" || ewp k "_collected_date_mw" then { si with start_date := v }
  else if swp k "collected_time_mw" || ewp k "_collected_time_mw" then { si with start_time := v }
  else if swp k "collected_date_sw" || ewp k "_collected_date_sw" then { si with start_date := v }
  else if swp k "collected_time_sw" || ewp k "_collected_time_sw" then { si with start_time := v }
  else if swp k "collected_date_ss" || ewp k "_collected_date_ss" then { si with start_date := v }
  else if swp k "collected_time_ss" || ewp k "_collected_time_ss" then { si with start_time := v }
  else if swp k "matrix_grab_code_" || ewp k "_matrix_grab_code" then { si with matrix := v }
  else if swp k "result_units_" || ewp k "_result_units" then { si with rc_result := v }
  else if swp k "grab_comp_" || ewp k "_grab_comp" then { si with comp_grab := v }
  else if swp k "collected_or_composite_end_date_" ∧
      strEnds k ('_' :: sidNorm sid) then { si with end_date := v }
  else if swp k "collected_or_composite_end_time_" ∧
      strEnds k ('_' :: sidNorm sid) then { si with end_time := v }
  else if swp k "number_of_containers_" || ewp k "_number_of_containers" ||
      swp k "num_containers_" || ewp k "_num_containers" ||
      swp k "num_cont_" || ewp k "_num_cont" ||
      swp k "container_count_" || ewp k "_container_count" ||
      kw k ["number_of_containers", "num_containers", "num_cont", "container_count",
            "# cont", "cont"] then { si with cont := v }
  else if swp k "result_" || ewp k "_result" ||
      swp k "residual_chloride_result_" || ewp k "_residual_chloride_result" ||
      kw k ["result", "residual_chloride_result", "residual chloride result"] then
    { si with rc_result := v }
  else if swp k "units_" || ewp k "_units" ||
      swp k "residual_chloride_units_" || ewp k "_residual_chloride_units" ||
      kw k ["units", "residual_chloride_units", "residual chloride units"] then
    { si with rc_units := v }
  else if swp k "dw_" ∧ ewp k "_matrix" then { si with matrix := v }
  else if swp k "matrix_dw-" || swp k "matrix_dw_" then { si with matrix := v }
  else if swp k "sample_" ∧ ewp k "_matrix_code" then { si with matrix := v }
  else if swp k "sample_" ∧ (ewp k "_collected_start_date" || ewp k "-collected_start_date") then
    { si with start_date := v }
  else if swp k "sample_" ∧ (ewp k "_collected_start_time" || ewp k "-collected_start_time") then
    { si with start_time := v }
  else if swp k "collected_start_date_" || ewp k "_collected_start_date" ||
      swp k "collected_start_date-" || ewp k "-collected_start_date" then
    { si with start_date := v }
  else if swp k "collected_start_time_" || ewp k "_collected_start_time" ||
      swp k "collected_start_time-" || ewp k "-collected_start_time" then
    { si with start_time := v }
  else if swp k "collected_end_date_" || ewp k "_collected_end_date" ||
      swp k "collected_end_date-" || ewp k "-collected_end_date" then
    { si with end_date := v }
  else if swp k "collected_end_time_" || ewp k "_collected_end_time" ||
      swp k "collected_end_time-" || ewp k "-collected_end_time" then
    { si with end_time := v }
  else if swp k "dw_" ∧ ewp k "_comp_grab" then { si with comp_grab := v }
  else if swp k "comp_grab_dw-" || swp k "comp_grab_dw_" then { si with comp_grab := v }
  else if swp k "dw_" ∧ ewp k "_collected_or_composite_end_date" then { si with end_date := v }
  else if swp k "collected_composite_end_date_dw-" ||
      swp k "collected_or_composite_end_date_dw-" ||
      swp k "collected_or_composite_end_date_dw" then { si with end_date := v }
  else if swp k "dw_" ∧ ewp k "_collected_or_composite_end_time" then { si with end_time := v }
  else if swp k "collected_composite_end_time_dw-" ||
      swp k "collected_or_composite_end_time_dw-" ||
      swp k "collected_or_composite_end_time_dw" then { si with end_time := v }
  else if (swp k "dw_" ∧ ewp k "_number_of_containers") || swp k "number_of_containers_dw" ||
      swp k "num_containers_dw" || swp k "num_cont_dw" then { si with cont := v }
  else if swp k "number_of_containers_dw-" || swp k "number_of_containers_dw_" ||
      swp k "num_containers_dw-" || swp k "num_containers_dw_" ||
      swp k "num_cont_dw-" || swp k "num_cont_dw_" then { si with cont := v }
  else if kw k ["date"] ∧ si.end_date = nilS then { si with end_date := v }
  else if kw k ["time"] ∧ si.end_time = nilS then { si with end_time := v }
  else if swp k "date_" ∧ si.end_date = nilS then { si with end_date := v }
  else if swp k "time_" ∧ si.end_time = nilS then { si with end_time := v }
  else if contPred k then { si with cont := v }
  else if rcResultPred k then { si with rc_result := v }
  else if rcUnitsPred k then { si with rc_units := v }
  else if commentPred k then { si with comment := v }
  else si

/-- The skip guards of the ungrouped pass (source lines 1236-1255): a field
is ignored when its key matches one of the listed patterns for a slot that is
already filled. -/
def ungroupedSkip (si : SampleInfo) (k : Str) : Bool :=
  (si.matrix ≠ nilS ∧ (swp k "matrix_" || ewp k "_matrix" || kw k ["matrix"])) ||
  (si.comp_grab ≠ nilS ∧ (swp k "comp_grab_" || ewp k "_comp_grab" ||
      kw k ["comp/grab", "comp_grab", "composite_grab"])) ||
  (si.start_date ≠ nilS ∧ (swp k "collected_date_start_" || ewp k "_collected_date_start" ||
      kw k ["composite_start_date", "composite start date"])) ||
  (si.start_time ≠ nilS ∧ (swp k "collected_time_start_" || ewp k "_collected_time_start" ||
      kw k ["time_collected_composite_start"] ||
      kw k ["composite_start_time", "composite start time"])) ||
  (si.end_date ≠ nilS ∧ (swp k "collected_date_end_" || ewp k "_collected_date_end" ||
      kw k ["composite_end_date", "composite end date", "collected_composite_end_date",
            "collected or composite end date", "date_collected_composite_end",
            "collected_or_composite_end_date"] ||
      swp k "collected_composite_end_date_")) ||
  (si.end_time ≠ nilS ∧ (swp k "collected_time_end_" || ewp k "_collected_time_end" ||
      kw k ["time_collected_composite_end"] ||
      kw k ["composite_end_time", "composite end time", "collected_composite_end_time",
            "collected or composite end time", "collected_or_composite_end_time"] ||
      swp k "collected_composite_end_time_")) ||
  (si.cont ≠ nilS ∧ contPred k) ||
  (si.rc_result ≠ nilS ∧ rcResultPred k) ||
  (si.rc_units ≠ nilS ∧ rcUnitsPred k) ||
  (si.comment ≠ nilS ∧ commentPred k)

/-- The mapping chain of the ungrouped pass (source lines 1257-1339).  It
repeats the six main slot branches and the generic `date`/`time` branches,
then adds catch-all key lists; note the faithful reproduction of source line
1328, which stores a generic `end_date` value into the end-time slot. -/
def applyUngrouped (si : SampleInfo) (f : SField) : SampleInfo :=
  if f.ftype ≠ chars "sample_field" then si
  else
    let k := lowStr f.key
    let v := f.value
    if ungroupedSkip si k then si
    else if matrixPred k then { si with matrix := v }
    else if compGrabPred k then { si with comp_grab := v }
    else if startDatePred k then { si with start_date := v }
    else if startTimePred k then { si with start_time := v }
    else if endDatePred k then { si with end_date := v }
    else if endTimePred k then { si with end_time := v }
    else if kw k ["date"] ∧ si.end_date = nilS then { si with end_date := v }
    else if kw k ["time"] ∧ si.end_time = nilS then { si with end_time := v }
    else if swp k "date_" ∧ si.end_date = nilS then { si with end_date := v }
    else if swp k "time_" ∧ si.end_time = nilS then { si with end_time := v }
    else if contPred k then { si with cont := v }
    else if rcResultPred k then { si with rc_result := v }
    else if rcUnitsPred k then { si with rc_units := v }
    else if commentPred k then { si with comment := v }
    else if kw k ["start_date", "start_time", "end_date", "end_time",
        "collection_date", "collection_time"] then
      if kw k ["start_date", "collection_date"] ∧ si.start_date = nilS then
        { si with start_date := v }
      else if kw k ["start_time", "collection_time"] ∧ si.start_time = nilS then
        { si with start_time := v }
      else if kw k ["end_date"] ∧ si.end_date = nilS then { si with end_time := v }
      else if kw k ["end_time"] ∧ si.end_time = nilS then { si with end_time := v }
      else si
    else if kw k ["containers", "container_count", "num_containers", "container_number",
        "no_containers"] then { si with cont := v }
    else if kw k ["residual_chlorine", "residual_chloride", "chlorine_result",
        "chloride_result", "chlorine_units", "chloride_units"] then
      if strHas k (chars "result") ∧ si.rc_result = nilS then { si with rc_result := v }
      else if strHas k (chars "units") ∧ si.rc_units = nilS then { si with rc_units := v }
      else si
    else si

/-- The matrix/comp-grab whitespace split (source lines 1343-1348). -/
def splitMatrixSpace (si : SampleInfo) : SampleInfo :=
  if si.matrix ≠ nilS ∧ si.comp_grab = nilS then
    if strHas si.matrix (chars " ") ∧ (pySplitWs si.matrix).length = 2 then
      { si with matrix := (pySplitWs si.matrix).getD 0 [],
                comp_grab := (pySplitWs si.matrix).getD 1 [] }
    else si
  else si

/-- The letter-digit split, applied at source lines 1351-1356 and again at
1370-1375. -/
def splitMatrixCode (si : SampleInfo) : SampleInfo :=
  if si.matrix ≠ nilS ∧ si.comp_grab = nilS then
    match si.matrix with
    | [a, b] =>
        if a.isAlpha ∧ b.isDigit then { si with matrix := [a], comp_grab := [b] }
        else si
    | _ => si
  else si

/-- Model of `re.match(r'^([\d.]+)\s*([a-zA-Z/]+)$', v.strip())` (source line
1363): a run of digits and dots, optional whitespace, then letters or
slashes to the end. -/
def resultUnitsMatch (s : Str) : Option (Str × Str) :=
  let t := pyStrip s
  let g1 := t.takeWhile (fun c : Char => c.isDigit ∨ c = '.')
  if g1 = [] then none
  else
    let r := (t.drop g1.length).dropWhile isPyWs
    if r ≠ [] ∧ r.all (fun c : Char => c.isAlpha ∨ c = '/') then some (g1, r) else none

/-- The combined result/units split (source lines 1359-1366). -/
def splitResultUnits (si : SampleInfo) : SampleInfo :=
  if si.rc_result ≠ nilS ∧ si.rc_units = nilS then
    match resultUnitsMatch si.rc_result with
    | some (g1, g2) => { si with rc_result := g1, rc_units := g2 }
    | none => si
  else si

/-- First value differing from `NIL` under the first table key satisfying the
predicate; mirrors the nested fallback loops (e.g. source lines 1381-1388):
a matching key whose values are all `NIL` leaves the slot unset and the scan
moves on. -/
def fbFind (ftm : List (Str × List Str)) (pred : Str → Bool) : Option Str :=
  match ftm with
  | [] => none
  | (k, vs) :: rest =>
      if pred k ∧ vs ≠ [] then
        match vs.find? (fun v => v ≠ nilS) with
        | some v => some v
        | none => fbFind rest pred
      else fbFind rest pred

/-- Fallback predicate for `Matrix` (source line 1382). -/
def fbMatrixPred (k : Str) : Bool :=
  swp k "matrix_" || ewp k "_matrix" || (swp k "dw_" ∧ ewp k "_matrix")

/-- Fallback predicate for `Comp/Grab` (source line 1393). -/
def fbCompGrabPred (k : Str) : Bool :=
  swp k "comp_grab_" || ewp k "_comp_grab" || (swp k "dw_" ∧ ewp k "_comp_grab")

/-- Fallback predicate for `Composite Start Date` (source lines 1404-1405). -/
def fbStartDatePred (k : Str) : Bool :=
  swp k "collected_date_start_" || ewp k "_collected_date_start" ||
  swp k "composite_start_date_" || ewp k "_composite_start_date"

/-- Fallback predicate for `Composite Start Time` (source lines 1416-1418). -/
def fbStartTimePred (k : Str) : Bool :=
  swp k "collected_time_start_" || ewp k "_collected_time_start" ||
  swp k "composite_start_time_" || ewp k "_composite_start_time" ||
  kw k ["time_collected_composite_start"]

/-- Fallback predicate for the end date (source lines 1429-1435). -/
def fbEndDatePred (k : Str) : Bool :=
  swp k "collected_date_end_" || ewp k "_collected_date_end" ||
  swp k "collected_as_composite_end_date_" || ewp k "_collected_as_composite_end_date" ||
  swp k "collected_at_composite_end_date_" || ewp k "_collected_at_composite_end_date" ||
  swp k "composite_end_date_" || ewp k "_composite_end_date" ||
  kw k ["date", "date_collected_composite_end", "collected_or_composite_end_date"] ||
  swp k "date_" || swp k "collected_composite_end_date_" ||
  (swp k "dw_" ∧ ewp k "_collected_or_composite_end_date")

/-- Fallback predicate for the end time (source lines 1446-1452). -/
def fbEndTimePred (k : Str) : Bool :=
  swp k "collected_time_end_" || ewp k "_collected_time_end" ||
  swp k "collected_as_composite_end_time_" || ewp k "_collected_as_composite_end_time" ||
  swp k "collected_at_composite_end_time_" || ewp k "_collected_at_composite_end_time" ||
  swp k "composite_end_time_" || ewp k "_composite_end_time" ||
  kw k ["time_collected_composite_end"] ||
  kw k ["time", "collected_or_composite_end_time"] ||
  swp k "time_" || swp k "collected_composite_end_time_" ||
  (swp k "dw_" ∧ ewp k "_collected_or_composite_end_time")

/-- Fallback predicate for the container count (source lines 1463-1469). -/
def fbContPred (k : Str) : Bool :=
  swp k "number_containers_" || ewp k "_number_containers" ||
  swp k "number_of_containers_" || ewp k "_number_of_containers" ||
  swp k "num_containers_" || ewp k "_num_containers" ||
  swp k "num_cont_" || ewp k "_num_cont" ||
  swp k "container_count_" || ewp k "_container_count" ||
  kw k ["num_containers", "#_cont", "container_count", "number_of_containers",
        "num_cont", "# cont", "cont"] ||
  (swp k "dw_" ∧ ewp k "_number_of_containers")

/-- Fallback predicate for the residual result (source lines 1481-1484). -/
def fbResultPred (k : Str) : Bool :=
  swp k "residual_chlorine_result_" || ewp k "_residual_chlorine_result" ||
  swp k "residual_chloride_result_" || ewp k "_residual_chloride_result" ||
  swp k "result_" || ewp k "_result" ||
  kw k ["result", "residual_chlorine_result", "residual_chloride_result",
        "residual chloride result"]

/-- Fallback predicate for the residual units (source lines 1496-1499). -/
def fbUnitsPred (k : Str) : Bool :=
  swp k "residual_chlorine_units_" || ewp k "_residual_chlorine_units" ||
  swp k "residual_chloride_units_" || ewp k "_residual_chloride_units" ||
  swp k "units_" || ewp k "_units" ||
  kw k ["units", "residual_chlorine_units", "residual_chloride_units",
        "residual chloride units"]

/-- Apply one fallback: fill the slot from the table only when it is still
`NIL`. -/
def fbFill (si : SampleInfo) (cur : Str) (ftm : List (Str × List Str))
    (pred : Str → Bool) (upd : SampleInfo → Str → SampleInfo) : SampleInfo :=
  if cur = nilS then
    match fbFind ftm pred with
    | some v => upd si v
    | none => si
  else si

/-- The global fallback block (source lines 1379-1506). -/
def applyFallbacks (ftm : List (Str × List Str)) (si : SampleInfo) : SampleInfo :=
  let si := fbFill si si.matrix ftm fbMatrixPred (fun s v => { s with matrix := v })
  let si := fbFill si si.comp_grab ftm fbCompGrabPred (fun s v => { s with comp_grab := v })
  let si := fbFill si si.start_date ftm fbStartDatePred (fun s v => { s with start_date := v })
  let si := fbFill si si.start_time ftm fbStartTimePred (fun s v => { s with start_time := v })
  let si := fbFill si si.end_date ftm fbEndDatePred (fun s v => { s with end_date := v })
  let si := fbFill si si.end_time ftm fbEndTimePred (fun s v => { s with end_time := v })
  let si := fbFill si si.cont ftm fbContPred (fun s v => { s with cont := v })
  let si := fbFill si si.rc_result ftm fbResultPred (fun s v => { s with rc_result := v })
  let si := fbFill si si.rc_units ftm fbUnitsPred (fun s v => { s with rc_units := v })
  si

/-- The canonical row of one sample before affirmation expansion: grouped
pass, ungrouped pass, compound splits, global fallbacks (source lines
1022-1506). -/
def restructureOneSample (fields : List SField) (sid : Str) : SampleInfo :=
  let groups := buildGroups fields
  let ftm := buildFTM fields
  let si0 := initSampleInfo sid
  let si1 :=
    match lookupGroup groups sid with
    | some gs => gs.foldl (applyGrouped sid) si0
    | none => si0
  let si2 := fields.foldl applyUngrouped si1
  let si3 := splitResultUnits (splitMatrixCode (splitMatrixSpace si2))
  let si4 := splitMatrixCode si3
  applyFallbacks ftm si4

/-- The affirmed analysis names of one sample (source lines 1510-1519):
checked `analysis_checkbox` records of this sample whose `analysis_name` is
non-empty, in record order. -/
def checkedAnalyses (fields : List SField) (sid : Str) : List Str :=
  fields.foldl (fun acc f =>
    if f.ftype = chars "analysis_checkbox" ∧ f.sample_id = some sid ∧
        f.value = chars "checked" then
      if f.analysis_name.getD [] ≠ [] then acc ++ [f.analysis_name.getD []] else acc
    else acc) []

/-- The affirmation expansion (source lines 1521-1531): one row per checked
analysis, or a single `NIL` row when none is checked. -/
def expandAnalyses (si : SampleInfo) (fields : List SField) (sid : Str) :
    List SampleInfo :=
  let checked := checkedAnalyses fields sid
  if checked.isEmpty then [{ si with analysis_request := nilS }]
  else checked.map (fun nm => { si with analysis_request := nm })

/-- Model of `restructure_sample_data` (source lines 982-1533) over the
record list and the ordered sample-id list (the `analysis_request` and
`sample_analysis_map` arguments of the Python signature are not read by the
modelled portion). -/
def restructure_sample_data (fields : List SField) (sample_ids : List Str) :
    List SampleInfo :=
  sample_ids.foldl (fun acc sid =>
    acc ++ expandAnalyses (restructureOneSample fields sid) fields sid) []

/-- The spec's C3 example input: one complete record element followed by one
incomplete element. -/
def c3ExampleInput : Str :=
  chars "[\x7b\"key\":\"Name\",\"value\":\"John\"\x7d,\x7b\"key\":\"Date\","

/-- A C3 input with one complete element and one incomplete element that
contains a closed nested object. -/
def c3NestedInput : Str :=
  chars "[\x7b\"key\":\"A\",\"value\":\"1\"\x7d,\x7b\"key\":\"B\",\"meta\":\x7b\"m\":\"z\"\x7d,"

/-- C1: evaluated at the spec's own regression pair, the matcher's key
similarity is 0, not 1.0 and not non-zero: `_calculate_similarity` splits
keys on whitespace only (never on `_` or `-`), so the normalized reference
key "client name" and candidate key "client_name" share no token, and
`_create_detailed_mapping` reports score 0 and no match for the pair. -/
theorem c1_separator_pair_scores_zero :
    calculate_similarity (pyStrip (lowStr (chars "Client Name")))
        (pyStrip (lowStr (chars "client_name"))) = 0 ∧
    create_detailed_mapping [⟨chars "Client Name", chars "Acme"⟩]
        [⟨chars "client_name", chars "Acme"⟩] =
      [⟨⟨chars "Client Name", chars "Acme"⟩, none, 0, false⟩] :=
  ⟨by decide, by decide⟩

/-- C3 counterexample: for an input with exactly N = 1 syntactically complete
record element followed by one incomplete element (whose text contains a
closed nested object), the cascade recovers 2 records, not 1: the truncation
repair cuts at the nested object's closing brace and then completes the
incomplete element, so "never N+1" fails as stated. -/
theorem c3_counterexample_nested_fragment :
    (recoveredRecords c3NestedInput).length = 2 := by decide

/-- C3 amended: on the spec's example input (whose incomplete trailing
element contains no closing brace) the cascade recovers exactly the one
"Name"/"John" record and drops the incomplete "Date" fragment. -/
theorem c3_spec_example_recovers_one :
    (recoveredRecords c3ExampleInput).length = 1 ∧
    ((recoveredRecords c3ExampleInput).head?.bind (fun r => getStr r (chars "key"))) =
      some (chars "Name") ∧
    ((recoveredRecords c3ExampleInput).head?.bind (fun r => getStr r (chars "value"))) =
      some (chars "John") :=
  ⟨by decide, by decide, by decide⟩

/-- C4: at the failing input `\x7b"a":"b"` — valid JSON except for exactly
one missing closing brace and no missing bracket — the structural-repair
stage does not yield a string that parses: its quote-escaping rewrite turns
the key's opening quote into `\"`, the padded result no longer parses, and
`repair_json` returns `None`.  The first conjunct shows the input really is
the claim's kind of input: appending the one missing brace parses. -/
theorem c4_repair_json_corrupts_object :
    (jsonLoads (chars "\x7b\"a\":\"b\"\x7d")).isSome = true ∧
    repair_json (chars "\x7b\"a\":\"b\"") = none :=
  ⟨by decide, by decide⟩

/-- Helper: the placeholder list and the checked list of
`normalize_checkbox_value` share no element. -/
lemma checkbox_lists_disjoint (x : Str)
    (h1 : x ∈ [chars "nil", chars "n/a", chars "-", chars ""])
    (h2 : x ∈ [chars "checked", chars "x", chars "✓", chars "yes", chars "y"]) : False := by
  fin_cases h1 <;> exact absurd h2 (by decide)

/-- C10: `normalize_checkbox_value` is total over optional strings and
returns only "checked" or "unchecked"; it returns "checked" exactly when the
argument is a string whose lower-casing is one of "checked", "x", "✓",
"yes", "y" (so `None`, "", "nil", "n/a" and "-" all yield "unchecked"). -/
theorem c10_normalize_checkbox_total (v : Option Str) (u : Str) :
    (normalize_checkbox_value v = chars "checked" ∨
      normalize_checkbox_value v = chars "unchecked") ∧
    (normalize_checkbox_value (some u) = chars "checked" ↔
      lowStr u ∈ [chars "checked", chars "x", chars "✓", chars "yes", chars "y"]) ∧
    normalize_checkbox_value none = chars "unchecked" := by
  refine ⟨?_, ⟨?_, ?_⟩, rfl⟩
  · cases v with
    | none => exact Or.inr rfl
    | some w =>
        simp only [normalize_checkbox_value]
        split
        · exact Or.inr rfl
        · split
          · exact Or.inl rfl
          · exact Or.inr rfl
  · intro h
    simp only [normalize_checkbox_value] at h
    by_cases h1 : u = [] ∨ lowStr u ∈ [chars "nil", chars "n/a", chars "-", chars ""]
    · rw [if_pos h1] at h
      exact absurd h (by decide)
    · rw [if_neg h1] at h
      by_cases h2 : lowStr u ∈ [chars "checked", chars "x", chars "✓", chars "yes", chars "y"]
      · exact h2
      · rw [if_neg h2] at h
        exact absurd h (by decide)
  · intro h2
    have h1 : ¬ (u = [] ∨ lowStr u ∈ [chars "nil", chars "n/a", chars "-", chars ""]) := by
      rintro (rfl | hmem)
      · exact absurd h2 (by decide)
      · exact checkbox_lists_disjoint (lowStr u) hmem h2
    simp only [normalize_checkbox_value]
    rw [if_neg h1, if_pos h2]

/-- Helper: projecting the affirmed-item field back out of the expanded rows
returns the name list itself. -/
lemma map_ar_of_mk (si : SampleInfo) (l : List Str) :
    (l.map (fun nm => { si with analysis_request := nm })).map (·.analysis_request) = l := by
  induction l with
  | nil => rfl
  | cons a t ih => simpa using ih

/-- C6: for every entity (sample), the affirmation expansion emits exactly
one row with `analysis_request = NIL` when no analysis item is affirmed, and
exactly n rows when n ≥ 1 items are affirmed, the rows carrying exactly the
affirmed names and agreeing with the entity's canonical row on every other
slot. -/
theorem c6_affirmation_row_expansion (si : SampleInfo) (fields : List SField) (sid : Str) :
    ((checkedAnalyses fields sid).length = 0 →
      expandAnalyses si fields sid = [{ si with analysis_request := nilS }]) ∧
    (1 ≤ (checkedAnalyses fields sid).length →
      (expandAnalyses si fields sid).length = (checkedAnalyses fields sid).length ∧
      (expandAnalyses si fields sid).map (·.analysis_request) = checkedAnalyses fields sid ∧
      ∀ r ∈ expandAnalyses si fields sid,
        { r with analysis_request := si.analysis_request } = si) := by
  rcases hc : checkedAnalyses fields sid with _ | ⟨x, xs⟩
  · constructor
    · intro _
      simp only [expandAnalyses, hc]
      rfl
    · intro h
      exact absurd h (by decide)
  · constructor
    · intro h0
      simp at h0
    · intro _
      have he : expandAnalyses si fields sid =
          (x :: xs).map (fun nm => { si with analysis_request := nm }) := by
        simp only [expandAnalyses, hc]
        rfl
      refine ⟨?_, ?_, ?_⟩
      · rw [he, List.length_map]
      · rw [he]
        exact map_ar_of_mk si (x :: xs)
      · intro r hr
        rw [he, List.mem_map] at hr
        obtain ⟨nm, _, hr⟩ := hr
        subst hr
        rfl

/-- Helper for C2: a record whose lower-cased key matches the matrix branch
patterns is assigned to the `Matrix` slot unconditionally by the grouped
mapping chain — the current slot value is never consulted. -/
lemma applyGrouped_matrix_set (sid : Str) (si : SampleInfo) (f : SField)
    (h : matrixPred (lowStr f.key) = true) :
    applyGrouped sid si f = { si with matrix := f.value } := by
  unfold applyGrouped
  simp [h]

/-- C2 amended: slot assignment in the grouped mapping pass is destructive
and last-match-wins: for any two records whose keys both match the `Matrix`
slot's predicates, processing them in order leaves the slot holding the
second (later) record's value, whatever the first record held and whatever
the slot held before. -/
theorem c2_grouped_assignment_last_wins (sid : Str) (si : SampleInfo)
    (k1 v1 k2 v2 : Str) (sa1 sa2 an1 an2 : Option Str)
    (_h1 : matrixPred (lowStr k1) = true) (h2 : matrixPred (lowStr k2) = true) :
    (([⟨k1, v1, chars "sample_field", sa1, an1⟩,
       ⟨k2, v2, chars "sample_field", sa2, an2⟩] : List SField).foldl
        (applyGrouped sid) si).matrix = v2 := by
  simp only [List.foldl]
  rw [applyGrouped_matrix_set sid _ _ h2]

/-- C2 witness: the amended claim at a concrete input. -/
theorem c2_last_wins_witness :
    (([⟨chars "matrix_01", chars "DW", chars "sample_field", none, none⟩,
       ⟨chars "matrix_02", chars "GW", chars "sample_field", none, none⟩] : List SField).foldl
        (applyGrouped (chars "S1")) (initSampleInfo (chars "S1"))).matrix = chars "GW" :=
  c2_grouped_assignment_last_wins (chars "S1") (initSampleInfo (chars "S1"))
    (chars "matrix_01") (chars "DW") (chars "matrix_02") (chars "GW")
    none none none none (by decide) (by decide)

/-- C2 counterexample: two records of the same sample both matching the
unfilled `Matrix` slot's predicates; the full restructuring leaves the slot
holding the SECOND record's value "GW", not the first record's "DW" that
first-match-wins non-destructive assignment would give. -/
theorem c2_first_match_wins_counterexample :
    matrixPred (lowStr (chars "matrix_01")) = true ∧
    matrixPred (lowStr (chars "matrix_02")) = true ∧
    (restructure_sample_data
        [⟨chars "matrix_01", chars "DW", chars "sample_field", some (chars "S1"), none⟩,
         ⟨chars "matrix_02", chars "GW", chars "sample_field", some (chars "S1"), none⟩]
        [chars "S1"]).map (·.matrix) = [chars "GW"] ∧
    chars "GW" ≠ chars "DW" :=
  ⟨by decide, by decide, by decide, by decide⟩

/-- Helper: the first component of `validate_field_value` is the sentinel on
the placeholder branch and the normalized value everywhere else. -/
lemma validate_fst_eq (k : Str) (v : Option Str) (t : Str) :
    (validate_field_value k v t).1 =
      if upStr (normValue v) ∈ placeholderVocab then nilS else normValue v := by
  by_cases h : upStr (normValue v) ∈ placeholderVocab
  · simp only [validate_field_value, if_pos h]
    rfl
  · simp only [validate_field_value, if_neg h]

/-- Helper: a value outside the placeholder vocabulary cannot be the literal
sentinel string. -/
lemma normValue_ne_nil_of_not_vocab (v : Option Str)
    (h : upStr (normValue v) ∉ placeholderVocab) : normValue v ≠ nilS := by
  intro he
  rw [he] at h
  exact h (by decide)

/-- C5 counterexample: the value "none", which the claim's vocabulary
contains, is not replaced by the sentinel (the code's list omits "NONE"),
while the value "nil", which the claim's vocabulary omits, is replaced. -/
theorem c5_vocabulary_counterexample :
    (validate_field_value (chars "location") (some (chars "none")) (chars "text")).1 =
      chars "none" ∧
    chars "none" ≠ chars "NIL" ∧
    (validate_field_value (chars "location") (some (chars "nil")) (chars "text")).1 =
      chars "NIL" :=
  ⟨by decide, by decide, by decide⟩

/-- C5 amended: the normalizer replaces a record's (stripped) value by the
sentinel `NIL` exactly when its upper-casing is one of "NIL", "N/A", "-",
"", "NULL", "EMPTY" — i.e. the code's vocabulary has "nil" and lacks "none";
every value outside that vocabulary is returned unchanged unaltered, never
as `NIL`. -/
theorem c5_placeholder_vocabulary (key : Str) (value : Option Str) (ty : Str) :
    ((validate_field_value key value ty).1 = nilS ↔
      upStr (normValue value) ∈ placeholderVocab) ∧
    (upStr (normValue value) ∉ placeholderVocab →
      (validate_field_value key value ty).1 = normValue value) := by
  rw [validate_fst_eq]
  by_cases h : upStr (normValue value) ∈ placeholderVocab
  · rw [if_pos h]
    exact ⟨⟨fun _ => h, fun _ => rfl⟩, fun hn => absurd h hn⟩
  · rw [if_neg h]
    exact ⟨⟨fun he => absurd he (normValue_ne_nil_of_not_vocab value h),
      fun hm => absurd hm h⟩, fun _ => rfl⟩

/-- Helper: every branch of the validator's confidence chain yields at least
`0.3`. -/
lemma confNote_floor (k v : Str) : mkRat 3 10 ≤ (validateConfNote k v).1 := by
  delta validateConfNote
  by_cases h1 : strHas k (chars "email") = true
  · rw [if_pos h1]
    split <;> decide
  rw [if_neg h1]
  by_cases h2 : strHas k (chars "phone") = true
  · rw [if_pos h2]
    split <;> decide
  rw [if_neg h2]
  by_cases h3 : strHas k (chars "date") = true
  · rw [if_pos h3]
    split <;> decide
  rw [if_neg h3]
  by_cases h4 : strHas k (chars "time") = true
  · rw [if_pos h4]
    split <;> decide
  rw [if_neg h4]
  by_cases h5 : strHas k (chars "sample") = true ∧ strHas k (chars "id") = true
  · rw [if_pos h5]
    split <;> first | decide | (split <;> decide)
  rw [if_neg h5]
  by_cases h6 : strHas k (chars "analysis") = true ∨
      ([chars "8240", chars "8080", chars "TPH", chars "8260", chars "8270"].any
        (fun code => strHas (upStr v) code)) = true
  · rw [if_pos h6]
    split <;> decide
  rw [if_neg h6]
  by_cases h7 : strHas k (chars "matrix") = true
  · rw [if_pos h7]
    split <;> decide
  rw [if_neg h7]
  by_cases h8 : strHas k (chars "comp") = true ∨ strHas k (chars "grab") = true
  · rw [if_pos h8]
    split <;> decide
  rw [if_neg h8]
  by_cases h9 : strHas k (chars "container") = true ∨ strHas k (chars "cont") = true
  · rw [if_pos h9]
    split <;> first | decide | (split <;> decide)
  rw [if_neg h9]
  split <;> decide

/-- Helper: the confidence of any validated field is at least `0.3`. -/
lemma validate_conf_floor (k : Str) (v : Option Str) (t : Str) :
    mkRat 3 10 ≤ (validate_field_value k v t).2.1 := by
  by_cases h : upStr (normValue v) ∈ placeholderVocab
  · simp only [validate_field_value, if_pos h]
    decide
  · simp only [validate_field_value, if_neg h]
    exact confNote_floor _ _

/-- Helper: a value normalized to the sentinel always has confidence `0.5`. -/
lemma validate_nil_conf (k : Str) (v : Option Str) (t : Str)
    (h : (validate_field_value k v t).1 = nilS) :
    (validate_field_value k v t).2.1 = mkRat 1 2 := by
  have hm : upStr (normValue v) ∈ placeholderVocab := by
    by_contra hn
    rw [validate_fst_eq, if_neg hn] at h
    exact normValue_ne_nil_of_not_vocab v hn h
  simp only [validate_field_value, if_pos hm]

/-- Helper: the retention test accepts every field. -/
lemma keepValidatedField_true (k : Str) (v : Option Str) (t : Str) :
    keepValidatedField k v t = true := by
  unfold keepValidatedField
  have h := validate_conf_floor k v t
  simp [h]

/-- C8: `validate_field_value` returns confidence at least `0.3` on every
code path, and exactly `0.5` whenever the value was normalized to `NIL`;
hence the drop test of `extract_comprehensive` (`confidence >= 0.3 or value
!= "NIL"`) accepts every field, its low-confidence drop branch is
unreachable, and the validation filter keeps the whole field sequence. -/
theorem c8_confidence_floor_retention (key : Str) (value : Option Str) (ty : Str)
    (fields : List (Str × Option Str × Str)) :
    mkRat 3 10 ≤ (validate_field_value key value ty).2.1 ∧
    ((validate_field_value key value ty).1 = nilS →
      (validate_field_value key value ty).2.1 = mkRat 1 2) ∧
    keepValidatedField key value ty = true ∧
    filterValidated fields = fields := by
  refine ⟨validate_conf_floor key value ty, validate_nil_conf key value ty,
    keepValidatedField_true key value ty, ?_⟩
  unfold filterValidated
  exact List.filter_eq_self.mpr (fun a _ => keepValidatedField_true a.1 a.2.1 a.2.2)

/-- Helper: the best-candidate fold preserves the matcher invariant "a
candidate is held exactly when the running best score beats the threshold,
and no candidate means score 0". -/
lemma bfFold_inv (tk : Str) (l : List EField) (acc : Option EField × ℚ)
    (h : (acc.1.isSome = true ↔ mkRat 3 5 < acc.2) ∧ (acc.1 = none → acc.2 = 0)) :
    ((l.foldl (bfStep tk) acc).1.isSome = true ↔ mkRat 3 5 < (l.foldl (bfStep tk) acc).2) ∧
    ((l.foldl (bfStep tk) acc).1 = none → (l.foldl (bfStep tk) acc).2 = 0) := by
  induction l generalizing acc with
  | nil => exact h
  | cons f t ih =>
      apply ih
      simp only [bfStep]
      split
      · rename_i hc
        exact ⟨⟨fun _ => hc.2, fun _ => rfl⟩, fun hn => by simp at hn⟩
      · exact h

/-- Helper: when every candidate's similarity stays at or below the
threshold, the scan never moves off its accumulator. -/
lemma bfFold_skip (tk : Str) (l : List EField) (acc : Option EField × ℚ)
    (h : ∀ f ∈ l, calculate_similarity tk (pyStrip (lowStr f.key)) ≤ mkRat 3 5) :
    l.foldl (bfStep tk) acc = acc := by
  induction l generalizing acc with
  | nil => rfl
  | cons f t ih =>
      have hstep : bfStep tk acc f = acc := by
        simp only [bfStep]
        rw [if_neg]
        rintro ⟨-, hgt⟩
        exact absurd hgt (not_lt.mpr (h f (List.mem_cons_self f t)))
      rw [List.foldl_cons, hstep]
      exact ih acc (fun g hg => h g (List.mem_cons_of_mem f hg))

/-- C7: every MatchResult row of the detailed mapping satisfies the claimed
three-way equivalence — `matched`, a non-null candidate, and a similarity
score above the threshold `0.6` coincide — and a reference element none of
whose candidates exceeds the threshold gets candidate `null` and score 0. -/
theorem c7_match_result_invariant (tfs ffs : List EField) :
    ∀ e ∈ create_detailed_mapping tfs ffs,
      ((e.matched = true ↔ e.filled ≠ none) ∧ (e.matched = true ↔ mkRat 3 5 < e.score)) ∧
      ((∀ f ∈ ffs, calculate_similarity (pyStrip (lowStr e.template.key))
          (pyStrip (lowStr f.key)) ≤ mkRat 3 5) →
        e.filled = none ∧ e.score = 0) := by
  intro e he
  rw [create_detailed_mapping, List.mem_map] at he
  obtain ⟨tf, _, he⟩ := he
  subst he
  have hinv := bfFold_inv (pyStrip (lowStr tf.key)) ffs (none, 0)
    ⟨by constructor
        · intro hs
          exact absurd hs (by decide)
        · intro hlt
          exact absurd hlt (by decide),
      fun _ => rfl⟩
  refine ⟨⟨?_, hinv.1⟩, ?_⟩
  · exact Option.isSome_iff_ne_none
  · intro hall
    have hz := bfFold_skip (pyStrip (lowStr tf.key)) ffs (none, 0) hall
    unfold bestFilled
    rw [hz]
    exact ⟨rfl, rfl⟩

/-- C7 witness: the invariant read off at a concrete mapping with one
matching pair. -/
theorem c7_match_result_invariant_witness :
    (((⟨⟨chars "client name", []⟩, some ⟨chars "client name", []⟩, 1, true⟩ : MapEntry).matched
        = true ↔
      (⟨⟨chars "client name", []⟩, some ⟨chars "client name", []⟩, 1, true⟩ : MapEntry).filled
        ≠ none) ∧
     ((⟨⟨chars "client name", []⟩, some ⟨chars "client name", []⟩, 1, true⟩ : MapEntry).matched
        = true ↔
      mkRat 3 5 <
        (⟨⟨chars "client name", []⟩, some ⟨chars "client name", []⟩, 1, true⟩ : MapEntry).score)) ∧
    ((∀ f ∈ [(⟨chars "client name", []⟩ : EField)],
        calculate_similarity
          (pyStrip (lowStr (⟨⟨chars "client name", []⟩,
            some ⟨chars "client name", []⟩, 1, true⟩ : MapEntry).template.key))
          (pyStrip (lowStr f.key)) ≤ mkRat 3 5) →
      (⟨⟨chars "client name", []⟩, some ⟨chars "client name", []⟩, 1, true⟩ : MapEntry).filled
        = none ∧
      (⟨⟨chars "client name", []⟩, some ⟨chars "client name", []⟩, 1, true⟩ : MapEntry).score
        = 0) :=
  c7_match_result_invariant [⟨chars "client name", []⟩] [⟨chars "client name", []⟩]
    ⟨⟨chars "client name", []⟩, some ⟨chars "client name", []⟩, 1, true⟩ (by decide)

/-- The error-handling contract of a repair stage: it returns `None` or a
string the JSON parser accepts (a raised exception would be neither). -/
def parsesOrNone (r : Option Str) : Prop :=
  r = none ∨ ∃ t, r = some t ∧ (jsonLoads t).isSome = true

/-- Helper: `extract_any_complete_fields` honors the stage contract. -/
lemma acf_parsesOrNone (s : Str) (a : Nat) :
    parsesOrNone (extract_any_complete_fields s a) := by
  unfold extract_any_complete_fields
  dsimp only
  split
  · exact Or.inl rfl
  · split
    · rename_i v heq
      exact Or.inr ⟨_, rfl, by rw [heq]; rfl⟩
    · exact Or.inl rfl

/-- Helper: `extract_last_complete_fields` honors the stage contract. -/
lemma lcf_parsesOrNone (s : Str) (a : Nat) :
    parsesOrNone (extract_last_complete_fields s a) := by
  unfold extract_last_complete_fields
  dsimp only
  split
  · exact acf_parsesOrNone s a
  · split
    · rename_i v heq
      exact Or.inr ⟨_, rfl, by rw [heq]; rfl⟩
    · exact acf_parsesOrNone s a

/-- Helper: `extract_extracted_fields_only` honors the stage contract. -/
lemma effo_parsesOrNone (s : Str) :
    parsesOrNone (extract_extracted_fields_only s) := by
  unfold extract_extracted_fields_only
  dsimp only
  split
  · exact Or.inl rfl
  · split
    · exact lcf_parsesOrNone _ _
    · split
      · rename_i v heq
        exact Or.inr ⟨_, rfl, by rw [heq]; rfl⟩
      · exact Or.inl rfl

/-- Helper: the progressive prefix search honors the stage contract. -/
lemma elvjTry_parsesOrNone (s : Str) (ps : List Nat) :
    parsesOrNone (elvjTry s ps) := by
  induction ps with
  | nil => exact effo_parsesOrNone s
  | cons p t ih =>
      unfold elvjTry
      dsimp only
      split
      · rename_i v heq
        exact Or.inr ⟨_, rfl, by rw [heq]; rfl⟩
      · exact ih

/-- Helper: `extract_largest_valid_json` honors the stage contract. -/
lemma elvj_parsesOrNone (s : Str) :
    parsesOrNone (extract_largest_valid_json s) :=
  elvjTry_parsesOrNone _ _

/-- Helper: `repair_truncated_json` honors the stage contract. -/
lemma rtj_parsesOrNone (s : Str) :
    parsesOrNone (repair_truncated_json s) := by
  unfold repair_truncated_json
  dsimp only
  split
  · rename_i v heq
    exact Or.inr ⟨_, rfl, by rw [heq]; rfl⟩
  · exact elvj_parsesOrNone _

/-- Helper: `repair_json` honors the stage contract. -/
lemma rj_parsesOrNone (s : Str) : parsesOrNone (repair_json s) := by
  unfold repair_json
  dsimp only
  split
  · rename_i v heq
    exact Or.inr ⟨_, rfl, by rw [heq]; rfl⟩
  · exact Or.inl rfl

/-- Helper: `emergency_field_extraction` honors the stage contract. -/
lemma emr_parsesOrNone (s : Str) :
    parsesOrNone (emergency_field_extraction s) := by
  unfold emergency_field_extraction
  dsimp only
  split
  · exact Or.inl rfl
  · split
    · rename_i v heq
      exact Or.inr ⟨_, rfl, by rw [heq]; rfl⟩
    · exact Or.inl rfl

/-- C9: every Recovery Cascade stage function, on every input string (and,
where the source passes one, every array-start index), returns either a
string that `json.loads` accepts or `None`; the models return totally, the
way the sources' `try`/`except` blocks convert every parse failure into a
`None` result or a fallback call instead of propagating an exception. -/
theorem c9_stage_contract (s : Str) (arrayStart : Nat) :
    parsesOrNone (repair_json s) ∧
    parsesOrNone (repair_truncated_json s) ∧
    parsesOrNone (extract_largest_valid_json s) ∧
    parsesOrNone (extract_extracted_fields_only s) ∧
    parsesOrNone (extract_last_complete_fields s arrayStart) ∧
    parsesOrNone (extract_any_complete_fields s arrayStart) ∧
    parsesOrNone (emergency_field_extraction s) :=
  ⟨rj_parsesOrNone s, rtj_parsesOrNone s, elvj_parsesOrNone s, effo_parsesOrNone s,
    lcf_parsesOrNone s arrayStart, acf_parsesOrNone s arrayStart, emr_parsesOrNone s⟩
